import Mathlib

set_option maxRecDepth 40000

/-!
# Verification of the footy_world league-aggregation pipeline

Shallow embedding of `process_football_data` (src/data_loader.py, lines 35-754)
and proofs settling the frozen claims C1-C10 about it.

Modelling choices:
* A raw table is a list of rows together with the list of column names that are
  present (`df.columns`).  Identity cells (Player/Squad/Competition/Pos) are
  string fields of the row; numeric cells are a total function from column name
  to `ℚ`.  A cell value is only meaningful when its column is listed in `cols`.
* Numeric values are rationals: every formula in the source is exact field
  arithmetic on sums and means, so `ℚ` mirrors it except for float rounding,
  which no claim depends on (the one tolerance claim, C6, concerns an exact
  discrepancy of 70 percentage points).
* The per-league dict `league_data` is an association list built by `dinsert`,
  which mirrors Python dict assignment (overwrite in place, else append).
* Python raises `KeyError` when a DataFrame is indexed with a column that is
  absent; the embedding mirrors exactly those accesses that are not protected
  by an `in df.columns` guard in the source (`league_df[league_df['Pressure
  Press'] > 0]`, `league_df[league_df['Total Att'] > 0]`,
  `league_df['Squad']`, and `df[available_cols]`) through `Except`.
  Float division never raises in numpy, so guarded-by-`max(1,·)` and
  plain float divisions are total (`ℚ` division).
* `pd.unique` keeps the first occurrence of each league whereas `List.dedup`
  keeps the last; the claims never mention row or column order (the spec makes
  row order explicitly a non-property), so the set of leagues is what matters.
-/

/-- One raw player row.  The identity cells are explicit fields (their columns
may still be absent from the table, in which case the pipeline never reads
them); all numeric cells are a total map from column name to value. -/
structure Row where
  player : String
  squad : String
  comp : String
  pos : String
  val : String → ℚ

/-- A raw input table: the set of columns actually present, and the rows. -/
structure Table where
  cols : List String
  rows : List Row

/-- Errors the Python code can raise while processing (caught by the blanket
`except` at line 752, which turns them into a `(None, None)` return). -/
inductive PyErr where
  | keyError (c : String)
  deriving DecidableEq, Repr

/-- Association-list lookup, first match wins (Python dict lookup). -/
def alookup : List (String × ℚ) → String → Option ℚ
  | [], _ => none
  | p :: d, k => if p.1 = k then some p.2 else alookup d k

/-- Python dict assignment `d[k] = v`: overwrite the existing entry in place,
otherwise append a new entry. -/
def dinsert (d : List (String × ℚ)) (k : String) (v : ℚ) : List (String × ℚ) :=
  if d.any (fun p => p.1 = k) then
    d.map (fun p => if p.1 = k then (k, v) else p)
  else
    d ++ [(k, v)]

/-- Conditional dict assignment: the pervasive `if <columns present / total
positive>: league_data[k] = v` pattern of the source. -/
def cins (c : Prop) [Decidable c] (k : String) (v : ℚ) (d : List (String × ℚ)) :
    List (String × ℚ) :=
  if c then dinsert d k v else d

/-- `league_df[c].sum()`. -/
def colSum (L : List Row) (c : String) : ℚ :=
  (L.map (fun r => r.val c)).sum

/-- `league_df[c].mean()` (sum divided by row count). -/
def meanOf (L : List Row) (c : String) : ℚ :=
  colSum L c / (L.length : ℚ)

/-- Python `max(1, s)` on floats, kernel-computable on `ℚ`. -/
def qmax1 (s : ℚ) : ℚ := if Rat.blt 1 s then s else 1

/-- Python `min(1.0, r)` on floats, kernel-computable on `ℚ`. -/
def qmin1 (r : ℚ) : ℚ := if Rat.blt r 1 then r else 1

/-- Python `max(1, league_df.shape[0])` on ints. -/
def nmax1 (n : ℕ) : ℕ := if n < 1 then 1 else n

/-- "1. ATTACK METRICS", lines 77-133.  The whole section is guarded by
`'Standard Sh' and 'Playing Time 90s'` being present. -/
def attackB (cols : List String) (L : List Row) (d : List (String × ℚ)) :
    List (String × ℚ) :=
  if "Standard Sh" ∈ cols ∧ "Playing Time 90s" ∈ cols then
    d |> (dinsert · "Shots Per 90"
            (colSum L "Standard Sh" / qmax1 (colSum L "Playing Time 90s")))
      |> cins ("Standard SoT" ∈ cols) "Shot on Target %"
            (if 0 < colSum L "Standard Sh" then
              100 * colSum L "Standard SoT" / colSum L "Standard Sh" else 0)
      |> cins ("Expected xG" ∈ cols) "xG Per Shot"
            (if 0 < colSum L "Standard Sh" then
              colSum L "Expected xG" / colSum L "Standard Sh" else 0)
      |> cins ("Performance Gls" ∈ cols) "Goals Per Shot"
            (if 0 < colSum L "Standard Sh" then
              colSum L "Performance Gls" / colSum L "Standard Sh" else 0)
      |> cins ("Performance Gls" ∈ cols) "Conversion Rate"
            (if 0 < colSum L "Standard Sh" then
              100 * colSum L "Performance Gls" / colSum L "Standard Sh" else 0)
      |> cins ("Performance Gls" ∈ cols ∧ "Standard SoT" ∈ cols) "Goals per SoT"
            (if 0 < colSum L "Standard SoT" then
              colSum L "Performance Gls" / colSum L "Standard SoT" else 0)
      |> cins ("Performance Gls" ∈ cols ∧ "Expected xG" ∈ cols) "G-xG"
            (colSum L "Performance Gls" - colSum L "Expected xG")
      |> cins ("Performance G-PK" ∈ cols ∧ "Expected npxG" ∈ cols) "Non-Penalty Goals"
            (colSum L "Performance G-PK")
      |> cins ("Performance G-PK" ∈ cols ∧ "Expected npxG" ∈ cols) "Non-Penalty xG"
            (colSum L "Expected npxG")
      |> cins ("Performance G-PK" ∈ cols ∧ "Expected npxG" ∈ cols ∧
               "Playing Time 90s" ∈ cols) "Non-Penalty Goals Per 90"
            (colSum L "Performance G-PK" / qmax1 (colSum L "Playing Time 90s"))
      |> cins ("Performance PK" ∈ cols ∧ "Standard PKatt" ∈ cols) "Penalty Conversion %"
            (if 0 < colSum L "Standard PKatt" then
              100 * colSum L "Performance PK" / colSum L "Standard PKatt" else 0)
  else d

/-- Goal creation metrics, lines 136-146 (GCA types loop unrolled). -/
def gcaB (cols : List String) (L : List Row) (d : List (String × ℚ)) :
    List (String × ℚ) :=
  if "GCA GCA" ∈ cols ∧ "Playing Time 90s" ∈ cols then
    d |> (dinsert · "GCA Per 90"
            (colSum L "GCA GCA" / qmax1 (colSum L "Playing Time 90s")))
      |> cins ("GCA Types PassLive" ∈ cols ∧ 0 < colSum L "GCA GCA") "GCA PassLive %"
            (100 * colSum L "GCA Types PassLive" / colSum L "GCA GCA")
      |> cins ("GCA Types PassDead" ∈ cols ∧ 0 < colSum L "GCA GCA") "GCA PassDead %"
            (100 * colSum L "GCA Types PassDead" / colSum L "GCA GCA")
      |> cins ("GCA Types TO" ∈ cols ∧ 0 < colSum L "GCA GCA") "GCA TO %"
            (100 * colSum L "GCA Types TO" / colSum L "GCA GCA")
      |> cins ("GCA Types Sh" ∈ cols ∧ 0 < colSum L "GCA GCA") "GCA Sh %"
            (100 * colSum L "GCA Types Sh" / colSum L "GCA GCA")
      |> cins ("GCA Types Fld" ∈ cols ∧ 0 < colSum L "GCA GCA") "GCA Fld %"
            (100 * colSum L "GCA Types Fld" / colSum L "GCA GCA")
      |> cins ("GCA Types Def" ∈ cols ∧ 0 < colSum L "GCA GCA") "GCA Def %"
            (100 * colSum L "GCA Types Def" / colSum L "GCA GCA")
  else d

/-- Threat distribution, lines 149-158. -/
def threatB (cols : List String) (L : List Row) (d : List (String × ℚ)) :
    List (String × ℚ) :=
  d |> cins ("Touches Att Pen" ∈ cols ∧ "Touches Touches" ∈ cols ∧
             0 < colSum L "Touches Touches") "Box Touches %"
        (100 * colSum L "Touches Att Pen" / colSum L "Touches Touches")
    |> cins ("Carries CPA" ∈ cols ∧ "Playing Time 90s" ∈ cols) "Carries into Box Per 90"
        (colSum L "Carries CPA" / qmax1 (colSum L "Playing Time 90s"))
    |> cins ("PPA" ∈ cols ∧ "Playing Time 90s" ∈ cols) "Passes into Box Per 90"
        (colSum L "PPA" / qmax1 (colSum L "Playing Time 90s"))

/-- "2. DEFENSIVE METRICS" up to aerial duels, lines 164-214 (zone loop unrolled;
the zone total sums the three zone column sums). -/
def defenseB (cols : List String) (L : List Row) (d : List (String × ℚ)) :
    List (String × ℚ) :=
  d |> cins ("Tackles Tkl" ∈ cols ∧ "Playing Time 90s" ∈ cols) "Tackles Per 90"
        (colSum L "Tackles Tkl" / qmax1 (colSum L "Playing Time 90s"))
    |> cins ("Tackles Tkl" ∈ cols ∧ "Playing Time 90s" ∈ cols ∧ "Tackles TklW" ∈ cols)
        "Tackle Success %"
        (if 0 < colSum L "Tackles Tkl" then
          100 * colSum L "Tackles TklW" / colSum L "Tackles Tkl" else 0)
    |> cins ("Int" ∈ cols ∧ "Playing Time 90s" ∈ cols) "Interceptions Per 90"
        (colSum L "Int" / qmax1 (colSum L "Playing Time 90s"))
    |> cins ("Int" ∈ cols ∧ "Playing Time 90s" ∈ cols ∧ "Tackles Tkl" ∈ cols)
        "Tackles+Interceptions Per 90"
        ((colSum L "Tackles Tkl" + colSum L "Int") / qmax1 (colSum L "Playing Time 90s"))
    |> cins ("Blocks Blocks" ∈ cols ∧ "Playing Time 90s" ∈ cols) "Blocks Per 90"
        (colSum L "Blocks Blocks" / qmax1 (colSum L "Playing Time 90s"))
    |> cins ("Blocks Blocks" ∈ cols ∧ "Playing Time 90s" ∈ cols ∧ "Blocks Sh" ∈ cols ∧
             "Blocks Pass" ∈ cols ∧ 0 < colSum L "Blocks Blocks") "Shot Blocks %"
        (100 * colSum L "Blocks Sh" / colSum L "Blocks Blocks")
    |> cins ("Blocks Blocks" ∈ cols ∧ "Playing Time 90s" ∈ cols ∧ "Blocks Sh" ∈ cols ∧
             "Blocks Pass" ∈ cols ∧ 0 < colSum L "Blocks Blocks") "Pass Blocks %"
        (100 * colSum L "Blocks Pass" / colSum L "Blocks Blocks")
    |> cins ("Clr" ∈ cols ∧ "Playing Time 90s" ∈ cols) "Clearances Per 90"
        (colSum L "Clr" / qmax1 (colSum L "Playing Time 90s"))
    |> cins ("Err" ∈ cols ∧ "Playing Time 90s" ∈ cols) "Errors Per 90"
        (colSum L "Err" / qmax1 (colSum L "Playing Time 90s"))
    |> cins ("Tackles Def 3rd" ∈ cols ∧ "Tackles Mid 3rd" ∈ cols ∧
             "Tackles Att 3rd" ∈ cols ∧
             0 < colSum L "Tackles Def 3rd" + colSum L "Tackles Mid 3rd" +
                 colSum L "Tackles Att 3rd") "Def 3rd Tackles %"
        (100 * colSum L "Tackles Def 3rd" /
          (colSum L "Tackles Def 3rd" + colSum L "Tackles Mid 3rd" +
           colSum L "Tackles Att 3rd"))
    |> cins ("Tackles Def 3rd" ∈ cols ∧ "Tackles Mid 3rd" ∈ cols ∧
             "Tackles Att 3rd" ∈ cols ∧
             0 < colSum L "Tackles Def 3rd" + colSum L "Tackles Mid 3rd" +
                 colSum L "Tackles Att 3rd") "Mid 3rd Tackles %"
        (100 * colSum L "Tackles Mid 3rd" /
          (colSum L "Tackles Def 3rd" + colSum L "Tackles Mid 3rd" +
           colSum L "Tackles Att 3rd"))
    |> cins ("Tackles Def 3rd" ∈ cols ∧ "Tackles Mid 3rd" ∈ cols ∧
             "Tackles Att 3rd" ∈ cols ∧
             0 < colSum L "Tackles Def 3rd" + colSum L "Tackles Mid 3rd" +
                 colSum L "Tackles Att 3rd") "Att 3rd Tackles %"
        (100 * colSum L "Tackles Att 3rd" /
          (colSum L "Tackles Def 3rd" + colSum L "Tackles Mid 3rd" +
           colSum L "Tackles Att 3rd"))
    |> cins ("Aerial Duels Won" ∈ cols ∧ "Aerial Duels Lost" ∈ cols ∧
             0 < colSum L "Aerial Duels Won" + colSum L "Aerial Duels Lost")
        "Aerial Duels Won %"
        (100 * colSum L "Aerial Duels Won" /
          (colSum L "Aerial Duels Won" + colSum L "Aerial Duels Lost"))

/-- `league_df[league_df[c] > 0]`: boolean-mask filtering raises `KeyError`
when the mask column is absent. -/
def filterPos (cols : List String) (L : List Row) (c : String) :
    Except PyErr (List Row) :=
  if c ∈ cols then .ok (L.filter (fun r => 0 < r.val c)) else .error (.keyError c)

/-- Pressure metrics, lines 217-222.  The guard checks `'Pressure Succ%'` but
the filter indexes `'Pressure Press'` without a guard. -/
def pressureB (cols : List String) (L : List Row) (d : List (String × ℚ)) :
    Except PyErr (List (String × ℚ)) :=
  if "Pressure Succ%" ∈ cols then
    (filterPos cols L "Pressure Press").map (fun valid =>
      if valid.isEmpty then dinsert d "Pressure Success %" 0
      else dinsert d "Pressure Success %" (meanOf valid "Pressure Succ%"))
  else .ok d

/-- Recoveries, lines 225-226. -/
def recovB (cols : List String) (L : List Row) (d : List (String × ℚ)) :
    List (String × ℚ) :=
  d |> cins ("Performance Recov" ∈ cols ∧ "Playing Time 90s" ∈ cols) "Recoveries Per 90"
        (colSum L "Performance Recov" / qmax1 (colSum L "Playing Time 90s"))

/-- "3. POSSESSION METRICS", lines 231-268 (touch-zone loop unrolled).
`Possession %` is assigned the literal 50 unconditionally inside the
`'Touches Touches'` guard (lines 246-247). -/
def possessionB (cols : List String) (L : List Row) (d : List (String × ℚ)) :
    List (String × ℚ) :=
  if "Touches Touches" ∈ cols then
    d |> cins ("Playing Time 90s" ∈ cols) "Touches Per 90"
          (colSum L "Touches Touches" / qmax1 (colSum L "Playing Time 90s"))
      |> cins (0 < colSum L "Touches Touches" ∧ "Touches Def 3rd" ∈ cols)
          "Def 3rd Touch %"
          (100 * colSum L "Touches Def 3rd" / colSum L "Touches Touches")
      |> cins (0 < colSum L "Touches Touches" ∧ "Touches Mid 3rd" ∈ cols)
          "Mid 3rd Touch %"
          (100 * colSum L "Touches Mid 3rd" / colSum L "Touches Touches")
      |> cins (0 < colSum L "Touches Touches" ∧ "Touches Att 3rd" ∈ cols)
          "Att 3rd Touch %"
          (100 * colSum L "Touches Att 3rd" / colSum L "Touches Touches")
      |> cins (0 < colSum L "Touches Touches" ∧ "Touches Att Pen" ∈ cols)
          "Att Pen Touch %"
          (100 * colSum L "Touches Att Pen" / colSum L "Touches Touches")
      |> cins (0 < colSum L "Touches Touches" ∧ "Touches Def Pen" ∈ cols)
          "Def Pen Touch %"
          (100 * colSum L "Touches Def Pen" / colSum L "Touches Touches")
      |> (dinsert · "Possession %" 50)
      |> cins ("Carries PrgC" ∈ cols ∧ "Playing Time 90s" ∈ cols)
          "Progressive Carries Per 90"
          (colSum L "Carries PrgC" / qmax1 (colSum L "Playing Time 90s"))
      |> cins ("Carries PrgC" ∈ cols ∧ "Carries Carries" ∈ cols ∧
               0 < colSum L "Carries Carries") "Progressive Carry %"
          (100 * colSum L "Carries PrgC" / colSum L "Carries Carries")
      |> cins ("Carries 1/3" ∈ cols ∧ "Playing Time 90s" ∈ cols)
          "Carries into Final Third Per 90"
          (colSum L "Carries 1/3" / qmax1 (colSum L "Playing Time 90s"))
      |> cins ("Carries CPA" ∈ cols ∧ "Playing Time 90s" ∈ cols)
          "Carries into Box Per 90"
          (colSum L "Carries CPA" / qmax1 (colSum L "Playing Time 90s"))
      |> cins ("Receiving PrgR" ∈ cols ∧ "Playing Time 90s" ∈ cols)
          "Progressive Passes Received Per 90"
          (colSum L "Receiving PrgR" / qmax1 (colSum L "Playing Time 90s"))
  else d

/-- Ball retention and take-ons, lines 271-288. -/
def retentionB (cols : List String) (L : List Row) (d : List (String × ℚ)) :
    List (String × ℚ) :=
  d |> cins ("Carries Mis" ∈ cols ∧ "Carries Dis" ∈ cols ∧ "Carries Carries" ∈ cols ∧
             0 < colSum L "Carries Carries") "Miscontrols per 100 Touches"
        (100 * colSum L "Carries Mis" / colSum L "Carries Carries")
    |> cins ("Carries Mis" ∈ cols ∧ "Carries Dis" ∈ cols ∧ "Carries Carries" ∈ cols ∧
             0 < colSum L "Carries Carries") "Dispossessed per 100 Touches"
        (100 * colSum L "Carries Dis" / colSum L "Carries Carries")
    |> cins ("Carries Mis" ∈ cols ∧ "Carries Dis" ∈ cols ∧ "Carries Carries" ∈ cols ∧
             0 < colSum L "Carries Carries") "Carry Success %"
        (100 * (colSum L "Carries Carries" - colSum L "Carries Mis" -
                colSum L "Carries Dis") / colSum L "Carries Carries")
    |> cins ("Take-Ons Succ" ∈ cols ∧ "Take-Ons Att" ∈ cols ∧
             0 < colSum L "Take-Ons Att") "Take-On Success %"
        (100 * colSum L "Take-Ons Succ" / colSum L "Take-Ons Att")
    |> cins ("Take-Ons Succ" ∈ cols ∧ "Take-Ons Att" ∈ cols ∧
             0 < colSum L "Take-Ons Att" ∧ "Playing Time 90s" ∈ cols) "Take-Ons Per 90"
        (colSum L "Take-Ons Att" / qmax1 (colSum L "Playing Time 90s"))
    |> cins ("Take-Ons Succ" ∈ cols ∧ "Take-Ons Att" ∈ cols ∧
             0 < colSum L "Take-Ons Att" ∧ "Playing Time 90s" ∈ cols)
        "Successful Take-Ons Per 90"
        (colSum L "Take-Ons Succ" / qmax1 (colSum L "Playing Time 90s"))

/-- Pass completion by distance, lines 294-306 (tuple loop unrolled). -/
def passTypesB (cols : List String) (L : List Row) (d : List (String × ℚ)) :
    List (String × ℚ) :=
  d |> cins ("Short Cmp" ∈ cols ∧ "Short Att" ∈ cols) "Short Pass Completion %"
        (if 0 < colSum L "Short Att" then
          100 * colSum L "Short Cmp" / colSum L "Short Att" else 0)
    |> cins ("Medium Cmp" ∈ cols ∧ "Medium Att" ∈ cols) "Medium Pass Completion %"
        (if 0 < colSum L "Medium Att" then
          100 * colSum L "Medium Cmp" / colSum L "Medium Att" else 0)
    |> cins ("Long Cmp" ∈ cols ∧ "Long Att" ∈ cols) "Long Pass Completion %"
        (if 0 < colSum L "Long Att" then
          100 * colSum L "Long Cmp" / colSum L "Long Att" else 0)

/-- Overall pass completion, lines 309-314.  Guards `'Total Cmp%'` but filters
on `'Total Att'` without a guard. -/
def passCompB (cols : List String) (L : List Row) (d : List (String × ℚ)) :
    Except PyErr (List (String × ℚ)) :=
  if "Total Cmp%" ∈ cols then
    (filterPos cols L "Total Att").map (fun valid =>
      if valid.isEmpty then dinsert d "Pass Completion %" 0
      else dinsert d "Pass Completion %" (meanOf valid "Total Cmp%"))
  else .ok d

/-- "4. PASSING METRICS" except pass-completion blocks already covered:
lines 317-376 (SCA types loop unrolled). -/
def passingB (cols : List String) (L : List Row) (d : List (String × ℚ)) :
    List (String × ℚ) :=
  d |> cins ("Total TotDist" ∈ cols ∧ "Total Att" ∈ cols ∧ 0 < colSum L "Total Att")
        "Avg Pass Distance"
        (colSum L "Total TotDist" / colSum L "Total Att")
    |> cins ("PrgP" ∈ cols ∧ "Playing Time 90s" ∈ cols) "Progressive Passes Per 90"
        (colSum L "PrgP" / qmax1 (colSum L "Playing Time 90s"))
    |> cins ("PrgP" ∈ cols ∧ "Total Att" ∈ cols ∧ 0 < colSum L "Total Att")
        "Progressive Pass Ratio"
        (100 * colSum L "PrgP" / colSum L "Total Att")
    |> cins ("Total PrgDist" ∈ cols ∧ "Playing Time 90s" ∈ cols)
        "Progressive Pass Distance Per 90"
        (colSum L "Total PrgDist" / qmax1 (colSum L "Playing Time 90s"))
    |> cins ("KP" ∈ cols ∧ "Playing Time 90s" ∈ cols) "Key Passes Per 90"
        (colSum L "KP" / qmax1 (colSum L "Playing Time 90s"))
    |> cins ("KP" ∈ cols ∧ "Total Att" ∈ cols ∧ 0 < colSum L "Total Att") "Key Pass %"
        (100 * colSum L "KP" / colSum L "Total Att")
    |> cins ("Expected xA" ∈ cols ∧ "Playing Time 90s" ∈ cols) "xA Per 90"
        (colSum L "Expected xA" / qmax1 (colSum L "Playing Time 90s"))
    |> cins ("Expected xA" ∈ cols ∧ "Playing Time 90s" ∈ cols ∧ "Ast" ∈ cols ∧
             "KP" ∈ cols ∧ 0 < colSum L "KP") "Assist Rate"
        (100 * colSum L "Ast" / colSum L "KP")
    |> cins ("Expected xA" ∈ cols ∧ "Playing Time 90s" ∈ cols ∧ "Ast" ∈ cols ∧
             "KP" ∈ cols ∧ 0 < colSum L "KP") "xA per Key Pass"
        (colSum L "Expected xA" / colSum L "KP")
    |> cins ("Ast" ∈ cols ∧ "Expected xA" ∈ cols) "A-xA"
        (colSum L "Ast" - colSum L "Expected xA")
    |> cins ("xAG" ∈ cols ∧ "Playing Time 90s" ∈ cols) "xAG Per 90"
        (colSum L "xAG" / qmax1 (colSum L "Playing Time 90s"))
    |> cins ("SCA SCA" ∈ cols ∧ "Playing Time 90s" ∈ cols) "SCA Per 90"
        (colSum L "SCA SCA" / qmax1 (colSum L "Playing Time 90s"))
    |> cins ("SCA SCA" ∈ cols ∧ "Playing Time 90s" ∈ cols ∧
             "SCA Types PassLive" ∈ cols ∧ 0 < colSum L "SCA SCA") "SCA PassLive %"
        (100 * colSum L "SCA Types PassLive" / colSum L "SCA SCA")
    |> cins ("SCA SCA" ∈ cols ∧ "Playing Time 90s" ∈ cols ∧
             "SCA Types PassDead" ∈ cols ∧ 0 < colSum L "SCA SCA") "SCA PassDead %"
        (100 * colSum L "SCA Types PassDead" / colSum L "SCA SCA")
    |> cins ("SCA SCA" ∈ cols ∧ "Playing Time 90s" ∈ cols ∧
             "SCA Types TO" ∈ cols ∧ 0 < colSum L "SCA SCA") "SCA TO %"
        (100 * colSum L "SCA Types TO" / colSum L "SCA SCA")
    |> cins ("SCA SCA" ∈ cols ∧ "Playing Time 90s" ∈ cols ∧
             "SCA Types Sh" ∈ cols ∧ 0 < colSum L "SCA SCA") "SCA Sh %"
        (100 * colSum L "SCA Types Sh" / colSum L "SCA SCA")
    |> cins ("SCA SCA" ∈ cols ∧ "Playing Time 90s" ∈ cols ∧
             "SCA Types Fld" ∈ cols ∧ 0 < colSum L "SCA SCA") "SCA Fld %"
        (100 * colSum L "SCA Types Fld" / colSum L "SCA SCA")
    |> cins ("SCA SCA" ∈ cols ∧ "Playing Time 90s" ∈ cols ∧
             "SCA Types Def" ∈ cols ∧ 0 < colSum L "SCA SCA") "SCA Def %"
        (100 * colSum L "SCA Types Def" / colSum L "SCA SCA")

/-- `league_df['Squad'].nunique()`: raises when `Squad` is absent (it never is
once the identity check has passed). -/
def squadNunique (cols : List String) (L : List Row) : Except PyErr ℕ :=
  if "Squad" ∈ cols then .ok ((L.map (fun r => r.squad)).dedup).length
  else .error (.keyError "Squad")

/-- "5. CORNER METRICS", lines 381-420 (corner-type loop unrolled).  The
estimated match count is `n*(n-1)/2` over distinct squads; `Corner Success
Rate (%)` is the constant 30 whenever `'Pass Types CK'` is present. -/
def cornerB (cols : List String) (L : List Row) (d : List (String × ℚ)) :
    Except PyErr (List (String × ℚ)) :=
  if "Pass Types CK" ∈ cols then
    match squadNunique cols L with
    | .error e => .error e
    | .ok nt =>
      .ok ((d
        |> (fun d => if 0 < ((nt : ℚ) * ((nt : ℚ) - 1) / 2) then
              dinsert d "Corners Per Match"
                (colSum L "Pass Types CK" / ((nt : ℚ) * ((nt : ℚ) - 1) / 2))
            else dinsert d "Corners Per Match" 5)
        |> cins (0 < colSum L "Pass Types CK" ∧ "Corner Kicks In" ∈ cols) "In Corner %"
            (100 * colSum L "Corner Kicks In" / colSum L "Pass Types CK")
        |> cins (0 < colSum L "Pass Types CK" ∧ "Corner Kicks Out" ∈ cols) "Out Corner %"
            (100 * colSum L "Corner Kicks Out" / colSum L "Pass Types CK")
        |> cins (0 < colSum L "Pass Types CK" ∧ "Corner Kicks Str" ∈ cols) "Str Corner %"
            (100 * colSum L "Corner Kicks Str" / colSum L "Pass Types CK")
        |> (fun d => if "Corner Kicks Str" ∈ cols then
              (if 0 < colSum L "Pass Types CK" then
                dinsert d "Direct Corners %"
                  (100 - (100 * colSum L "Corner Kicks Str" / colSum L "Pass Types CK"))
              else dinsert d "Direct Corners %" 85)
            else d)
        |> (dinsert · "Corner Success Rate (%)" 30))
        |> cins ("SCA Types PassDead" ∈ cols ∧ "Pass Types CK" ∈ cols ∧
                 0 < colSum L "Pass Types CK") "Corner to Shot %"
            (100 * qmin1 (colSum L "SCA Types PassDead" /
                          (colSum L "Pass Types CK" * (3 / 2)))))
  else
    .ok (d |> cins ("SCA Types PassDead" ∈ cols ∧ "Pass Types CK" ∈ cols ∧
                    0 < colSum L "Pass Types CK") "Corner to Shot %"
            (100 * qmin1 (colSum L "SCA Types PassDead" /
                          (colSum L "Pass Types CK" * (3 / 2)))))

/-- "6. PLAYER IMPACT METRICS", lines 426-462 (impact loop unrolled; the
seven Team Success columns are league means, the rest per-90 sums). -/
def impactB (cols : List String) (L : List Row) (d : List (String × ℚ)) :
    List (String × ℚ) :=
  d |> cins ("Team Success +/-" ∈ cols) "+/-" (meanOf L "Team Success +/-")
    |> cins ("Team Success +/-90" ∈ cols) "+/- per 90" (meanOf L "Team Success +/-90")
    |> cins ("Team Success On-Off" ∈ cols) "On-Off +/-" (meanOf L "Team Success On-Off")
    |> cins ("Team Success (xG) xG+/-" ∈ cols) "xG +/-"
        (meanOf L "Team Success (xG) xG+/-")
    |> cins ("Team Success (xG) xG+/-90" ∈ cols) "xG +/- per 90"
        (meanOf L "Team Success (xG) xG+/-90")
    |> cins ("Team Success (xG) On-Off" ∈ cols) "xG On-Off"
        (meanOf L "Team Success (xG) On-Off")
    |> cins ("Team Success PPM" ∈ cols) "Points per Match" (meanOf L "Team Success PPM")
    |> cins ("Performance Gls" ∈ cols ∧ "Ast" ∈ cols ∧ "Playing Time 90s" ∈ cols)
        "G+A Per 90"
        ((colSum L "Performance Gls" + colSum L "Ast") /
          qmax1 (colSum L "Playing Time 90s"))
    |> cins ("Performance Gls" ∈ cols ∧ "Ast" ∈ cols ∧ "Playing Time 90s" ∈ cols ∧
             "Performance G-PK" ∈ cols) "G+A-PK Per 90"
        ((colSum L "Performance G-PK" + colSum L "Ast") /
          qmax1 (colSum L "Playing Time 90s"))
    |> cins ("Expected xG" ∈ cols ∧ "Expected xA" ∈ cols ∧ "Playing Time 90s" ∈ cols)
        "xG+xA Per 90"
        ((colSum L "Expected xG" + colSum L "Expected xA") /
          qmax1 (colSum L "Playing Time 90s"))
    |> cins ("Expected xG" ∈ cols ∧ "Expected xA" ∈ cols ∧ "Playing Time 90s" ∈ cols ∧
             "Expected npxG" ∈ cols) "npxG+xA Per 90"
        ((colSum L "Expected npxG" + colSum L "Expected xA") /
          qmax1 (colSum L "Playing Time 90s"))

/-- "7. EFFICIENCY METRICS", lines 470-524. -/
def efficiencyB (cols : List String) (L : List Row) (d : List (String × ℚ)) :
    List (String × ℚ) :=
  d |> cins ("Touches Touches" ∈ cols ∧ 0 < colSum L "Touches Touches" ∧
             "Performance Gls" ∈ cols ∧ "Ast" ∈ cols) "Goal Impact per 100 Touches"
        (100 * (colSum L "Performance Gls" + colSum L "Ast") /
          colSum L "Touches Touches")
    |> cins ("Touches Touches" ∈ cols ∧ 0 < colSum L "Touches Touches" ∧
             "Expected xG" ∈ cols ∧ "Expected xA" ∈ cols) "xG+xA per 100 Touches"
        (100 * (colSum L "Expected xG" + colSum L "Expected xA") /
          colSum L "Touches Touches")
    |> cins ("Touches Touches" ∈ cols ∧ 0 < colSum L "Touches Touches" ∧
             "SCA SCA" ∈ cols) "SCA per 100 Touches"
        (100 * colSum L "SCA SCA" / colSum L "Touches Touches")
    |> cins ("Total Att" ∈ cols ∧ 0 < colSum L "Total Att" ∧ "PrgP" ∈ cols)
        "Progressive Pass %"
        (100 * colSum L "PrgP" / colSum L "Total Att")
    |> cins ("Total Att" ∈ cols ∧ 0 < colSum L "Total Att" ∧ "KP" ∈ cols) "Key Pass %"
        (100 * colSum L "KP" / colSum L "Total Att")
    |> cins ("Carries Carries" ∈ cols ∧ 0 < colSum L "Carries Carries" ∧
             "Carries PrgC" ∈ cols) "Progressive Carry %"
        (100 * colSum L "Carries PrgC" / colSum L "Carries Carries")
    |> cins ("Carries Carries" ∈ cols ∧ 0 < colSum L "Carries Carries" ∧
             "Carries 1/3" ∈ cols) "Final Third Entry per Carry %"
        (100 * colSum L "Carries 1/3" / colSum L "Carries Carries")
    |> cins ("Carries Carries" ∈ cols ∧ 0 < colSum L "Carries Carries" ∧
             "Carries CPA" ∈ cols) "Box Entry per Carry %"
        (100 * colSum L "Carries CPA" / colSum L "Carries Carries")

/-- "8. COMPOSITE METRICS", lines 530-587.  `Pressing Intensity` weights
attacking-third tackles 3x, middle-third 2x, defensive-third 1x over the
total of the three zone sums. -/
def compositeB (cols : List String) (L : List Row) (d : List (String × ℚ)) :
    List (String × ℚ) :=
  d |> cins ("Performance Gls" ∈ cols ∧ "Ast" ∈ cols ∧ "Expected xG" ∈ cols ∧
             "Expected xA" ∈ cols ∧
             0 < colSum L "Expected xG" + colSum L "Expected xA") "Offensive Efficiency"
        ((colSum L "Performance Gls" + colSum L "Ast") /
          (colSum L "Expected xG" + colSum L "Expected xA"))
    |> cins ("Performance Gls" ∈ cols ∧ "Ast" ∈ cols ∧ "Expected G-xG" ∈ cols ∧
             "Expected A-xAG" ∈ cols ∧ "PrgP" ∈ cols ∧ "Carries PrgC" ∈ cols)
        "Offensive Value Added"
        (colSum L "Expected G-xG" + colSum L "Expected A-xAG" +
          colSum L "PrgP" / (nmax1 L.length : ℕ) / 10 +
          colSum L "Carries PrgC" / (nmax1 L.length : ℕ) / 10)
    |> cins ("Int" ∈ cols ∧ "Tackles TklW" ∈ cols ∧ "Clr" ∈ cols ∧
             "Blocks Blocks" ∈ cols) "Defensive Value Metric"
        ((colSum L "Int" + colSum L "Tackles TklW" + colSum L "Clr" +
          colSum L "Blocks Blocks") / (nmax1 L.length : ℕ))
    |> cins ("Total Att" ∈ cols ∧ "Total Cmp%" ∈ cols ∧ "Long Att" ∈ cols ∧
             0 < colSum L "Total Att") "Direct Play Index"
        ((colSum L "Long Att" / colSum L "Total Att" * 100) /
          (meanOf L "Total Cmp%" / 100))
    |> cins ("Tackles Att 3rd" ∈ cols ∧ "Tackles Mid 3rd" ∈ cols ∧
             "Tackles Def 3rd" ∈ cols ∧
             0 < colSum L "Tackles Att 3rd" + colSum L "Tackles Mid 3rd" +
                 colSum L "Tackles Def 3rd") "Pressing Intensity"
        ((3 * colSum L "Tackles Att 3rd" + 2 * colSum L "Tackles Mid 3rd" +
          colSum L "Tackles Def 3rd") /
         (colSum L "Tackles Att 3rd" + colSum L "Tackles Mid 3rd" +
          colSum L "Tackles Def 3rd"))

/-- The whole per-league derivation, lines 74-587, in source order.
An error raised in an earlier section propagates before later sections run. -/
def deriveLeague (cols : List String) (L : List Row) :
    Except PyErr (List (String × ℚ)) :=
  match pressureB cols L
      (defenseB cols L (threatB cols L (gcaB cols L (attackB cols L [])))) with
  | .error e => .error e
  | .ok d5 =>
    match passCompB cols L
        (passTypesB cols L (retentionB cols L (possessionB cols L (recovB cols L d5)))) with
    | .error e => .error e
    | .ok d10 =>
      match cornerB cols L (passingB cols L d10) with
      | .error e => .error e
      | .ok d12 => .ok (compositeB cols L (efficiencyB cols L (impactB cols L d12)))

/-- One `league_data` record: the `'League'` key plus the metric entries. -/
structure LeagueRow where
  league : String
  vals : List (String × ℚ)
  deriving DecidableEq

/-- The league-level DataFrame: its column set (metric columns; the `League`
name is the `league` field of each row) and one row per qualifying league. -/
structure LeagueTable where
  cols : List String
  rows : List LeagueRow
  deriving DecidableEq

/-- The player-level DataFrame: the selected columns and all retained rows. -/
structure PlayerTable where
  cols : List String
  rows : List Row

/-- The league loop, lines 63-591: for each distinct league, skip partitions
with fewer than 10 rows, derive the metrics, and keep the record only when
the dict has more than 5 entries (the `'League'` key counts, line 590). -/
def buildLM (cols : List String) (rows : List Row) :
    List String → Except PyErr (List LeagueRow)
  | [] => .ok []
  | lg :: rest =>
    if (rows.filter (fun r => r.comp = lg)).length < 10 then buildLM cols rows rest
    else
      match deriveLeague cols (rows.filter (fun r => r.comp = lg)) with
      | .error e => .error e
      | .ok d =>
        match buildLM cols rows rest with
        | .error e => .error e
        | .ok tail => if d.length + 1 > 5 then .ok (⟨lg, d⟩ :: tail) else .ok tail

/-- Identity columns checked at lines 50-55. -/
def requiredCols : List String := ["Player", "Competition", "Squad"]

/-- Player projection identity columns, line 594.  `'Pos'` is selected here
but never checked anywhere, so `df[available_cols]` raises when it is absent. -/
def playerCols : List String := ["Player", "Squad", "Competition", "Pos"]

/-- Metric columns offered to the player projection, lines 597-621. -/
def playerMetricCols : List String :=
  ["Performance Gls", "Performance Ast", "Performance G+A", "Performance G-PK",
   "Standard Sh", "Standard SoT", "Standard SoT%", "Expected xG", "Expected G-xG",
   "GCA GCA", "GCA GCA90", "Expected xA", "Expected npxG",
   "Touches Touches", "Touches Att Pen", "Touches Att 3rd", "Touches Mid 3rd",
   "Touches Def 3rd", "Carries Carries", "Carries PrgC", "Carries 1/3",
   "Carries CPA", "Receives PrgR", "Take-Ons Att", "Take-Ons Succ",
   "Take-Ons Succ%", "Total Att", "Total Cmp", "Total Cmp%", "PrgP", "KP",
   "Ast", "xAG", "Short Cmp%", "Medium Cmp%", "Long Cmp%", "SCA SCA",
   "SCA SCA90", "Tackles Tkl", "Tackles TklW", "Int", "Blocks Blocks", "Clr",
   "Aerial Duels Won", "Aerial Duels Won%", "Performance Recov",
   "Pass Types CK", "Corner Kicks In", "Corner Kicks Out", "Corner Kicks Str",
   "Playing Time 90s", "Playing Time Min"]

/-- `df[available_cols].copy()`, lines 624-625: all rows of the raw table are
kept (no league or playing-time filter); indexing raises if any selected
column (in practice `'Pos'`) is missing. -/
def playerProject (t : Table) : Except PyErr PlayerTable :=
  let avail := playerCols ++ playerMetricCols.filter (fun c => c ∈ t.cols)
  match avail.find? (fun c => ¬ c ∈ t.cols) with
  | some c => .error (.keyError c)
  | none => .ok ⟨avail, t.rows⟩

/-- The Schema Catalog: `default_values`, lines 632-741.  The Python dict
literal repeats three keys; dict semantics keep one entry with the last
value, which is what is listed here: `Carries into Box Per 90` (4 then 2),
`Key Pass %` (3 twice) and `Progressive Carry %` (15 then 10). -/
def defaultValues : List (String × ℚ) :=
  [("Shots Per 90", 12), ("Shot on Target %", 35), ("xG Per Shot", 1/10),
   ("Goals Per Shot", 1/10), ("Conversion Rate", 10), ("Goals per SoT", 3/10),
   ("G-xG", 0), ("GCA Per 90", 2), ("Box Touches %", 7),
   ("Carries into Box Per 90", 2), ("Passes into Box Per 90", 5),
   ("Non-Penalty Goals Per 90", 6/5), ("Penalty Conversion %", 75),
   ("Tackles Per 90", 15), ("Tackle Success %", 65), ("Interceptions Per 90", 10),
   ("Tackles+Interceptions Per 90", 25), ("Blocks Per 90", 8),
   ("Shot Blocks %", 50), ("Pass Blocks %", 50), ("Clearances Per 90", 20),
   ("Errors Per 90", 1/2), ("Def 3rd Tackles %", 50), ("Mid 3rd Tackles %", 35),
   ("Att 3rd Tackles %", 15), ("Aerial Duels Won %", 50),
   ("Pressure Success %", 30), ("Recoveries Per 90", 35),
   ("Possession %", 50), ("Touches Per 90", 500), ("Def 3rd Touch %", 30),
   ("Mid 3rd Touch %", 50), ("Att 3rd Touch %", 20), ("Att Pen Touch %", 5),
   ("Def Pen Touch %", 3), ("Progressive Carries Per 90", 30),
   ("Progressive Carry %", 10), ("Carries into Final Third Per 90", 15),
   ("Progressive Passes Received Per 90", 25), ("Miscontrols per 100 Touches", 3),
   ("Dispossessed per 100 Touches", 2), ("Carry Success %", 95),
   ("Take-On Success %", 55), ("Take-Ons Per 90", 8),
   ("Successful Take-Ons Per 90", 9/2),
   ("Short Pass Completion %", 88), ("Medium Pass Completion %", 80),
   ("Long Pass Completion %", 55), ("Pass Completion %", 80),
   ("Avg Pass Distance", 18), ("Progressive Passes Per 90", 35),
   ("Progressive Pass Ratio", 10), ("Progressive Pass Distance Per 90", 400),
   ("Key Passes Per 90", 3/2), ("Key Pass %", 3), ("xA Per 90", 1/5),
   ("Assist Rate", 10), ("xA per Key Pass", 1/10), ("A-xA", 0),
   ("xAG Per 90", 1/4), ("SCA Per 90", 3),
   ("Corners Per Match", 5), ("In Corner %", 25), ("Out Corner %", 60),
   ("Str Corner %", 15), ("Direct Corners %", 85),
   ("Corner Success Rate (%)", 30), ("Corner to Shot %", 25),
   ("+/-", 0), ("+/- per 90", 0), ("On-Off +/-", 0), ("xG +/-", 0),
   ("xG +/- per 90", 0), ("xG On-Off", 0), ("Points per Match", 3/2),
   ("G+A Per 90", 2/5), ("G+A-PK Per 90", 7/20), ("xG+xA Per 90", 2/5),
   ("npxG+xA Per 90", 7/20),
   ("Goal Impact per 100 Touches", 4/5), ("xG+xA per 100 Touches", 4/5),
   ("SCA per 100 Touches", 5), ("Progressive Pass %", 12),
   ("Final Third Entry per Carry %", 5), ("Box Entry per Carry %", 3/2),
   ("Offensive Efficiency", 1), ("Offensive Value Added", 0),
   ("Defensive Value Metric", 50), ("Direct Play Index", 100),
   ("Pressing Intensity", 3/2)]

/-- The metric columns of `pd.DataFrame(league_metrics)`: the union of the
keys appearing in the league records. -/
def derivedColsOf (ms : List LeagueRow) : List String :=
  ((ms.map (fun r => r.vals.map Prod.fst)).flatten).dedup

/-- The defaulting pass, lines 743-745: every catalog column absent from the
whole table is added, holding the catalog default in every league row. -/
def fillDefaults (ms : List LeagueRow) : LeagueTable :=
  let pre := derivedColsOf ms
  let add := defaultValues.filter (fun p => ¬ p.1 ∈ pre)
  ⟨pre ++ add.map Prod.fst, ms.map (fun r => ⟨r.league, r.vals ++ add⟩)⟩

/-- Observable outcomes of `process_football_data`.  The Python function
returns `(None, None)` in the first three cases, distinguished by the
message channel: `st.error` for the missing identity columns, the blanket
`except` at lines 752-754 for a raised error, and the `st.warning` at line
749 when no league produced enough metrics. -/
inductive PipeResult where
  | missingIdentity (missing : List String)
  | excepted (e : PyErr)
  | insufficient
  | ok (lt : LeagueTable) (pt : PlayerTable)

/-- `process_football_data(df)`, lines 35-754. -/
def process_football_data (t : Table) : PipeResult :=
  let missing := requiredCols.filter (fun c => ¬ c ∈ t.cols)
  if missing.isEmpty then
    match buildLM t.cols t.rows ((t.rows.map (fun r => r.comp)).dedup) with
    | .error e => .excepted e
    | .ok ms =>
      match playerProject t with
      | .error e => .excepted e
      | .ok pt => if ms.isEmpty then .insufficient else .ok (fillDefaults ms) pt
  else .missingIdentity missing

/-- Numeric cell assignment from a finite association list (0 elsewhere,
matching a dense numeric DataFrame whose remaining cells are unused). -/
def fOf (l : List (String × ℚ)) : String → ℚ := fun c => (alookup l c).getD 0

/-- `n` identical player rows of league `cp`, all in squad `S`. -/
def constRows (n : ℕ) (cp : String) (f : String → ℚ) : List Row :=
  List.replicate n ⟨"P", "S", cp, "MF", f⟩

/-- The C3 scenario input: 12 rows for League A with `shots=10,
shots_on_target=4, minutes_90s=1` and 5 rows for League B. -/
def c3T : Table :=
  ⟨["Player", "Competition", "Squad", "Pos", "Standard Sh", "Standard SoT",
    "Playing Time 90s"],
   constRows 12 "League A"
       (fOf [("Standard Sh", 10), ("Standard SoT", 4), ("Playing Time 90s", 1)]) ++
     constRows 5 "League B"
       (fOf [("Standard Sh", 10), ("Standard SoT", 4), ("Playing Time 90s", 1)])⟩

def attackNames : List String :=
  ["Shots Per 90", "Shot on Target %", "xG Per Shot", "Goals Per Shot",
   "Conversion Rate", "Goals per SoT", "G-xG", "Non-Penalty Goals",
   "Non-Penalty xG", "Non-Penalty Goals Per 90", "Penalty Conversion %"]

def gcaNames : List String :=
  ["GCA Per 90", "GCA PassLive %", "GCA PassDead %", "GCA TO %", "GCA Sh %",
   "GCA Fld %", "GCA Def %"]

def threatNames : List String :=
  ["Box Touches %", "Carries into Box Per 90", "Passes into Box Per 90"]

def defenseNames : List String :=
  ["Tackles Per 90", "Tackle Success %", "Interceptions Per 90",
   "Tackles+Interceptions Per 90", "Blocks Per 90", "Shot Blocks %",
   "Pass Blocks %", "Clearances Per 90", "Errors Per 90", "Def 3rd Tackles %",
   "Mid 3rd Tackles %", "Att 3rd Tackles %", "Aerial Duels Won %"]

def pressureNames : List String := ["Pressure Success %"]

def recovNames : List String := ["Recoveries Per 90"]

def possessionNames : List String :=
  ["Touches Per 90", "Def 3rd Touch %", "Mid 3rd Touch %", "Att 3rd Touch %",
   "Att Pen Touch %", "Def Pen Touch %", "Possession %",
   "Progressive Carries Per 90", "Progressive Carry %",
   "Carries into Final Third Per 90", "Carries into Box Per 90",
   "Progressive Passes Received Per 90"]

def retentionNames : List String :=
  ["Miscontrols per 100 Touches", "Dispossessed per 100 Touches",
   "Carry Success %", "Take-On Success %", "Take-Ons Per 90",
   "Successful Take-Ons Per 90"]

def passTypesNames : List String :=
  ["Short Pass Completion %", "Medium Pass Completion %", "Long Pass Completion %"]

def passCompNames : List String := ["Pass Completion %"]

def passingNames : List String :=
  ["Avg Pass Distance", "Progressive Passes Per 90", "Progressive Pass Ratio",
   "Progressive Pass Distance Per 90", "Key Passes Per 90", "Key Pass %",
   "xA Per 90", "Assist Rate", "xA per Key Pass", "A-xA", "xAG Per 90",
   "SCA Per 90", "SCA PassLive %", "SCA PassDead %", "SCA TO %", "SCA Sh %",
   "SCA Fld %", "SCA Def %"]

def cornerNames : List String :=
  ["Corners Per Match", "In Corner %", "Out Corner %", "Str Corner %",
   "Direct Corners %", "Corner Success Rate (%)", "Corner to Shot %"]

def impactNames : List String :=
  ["+/-", "+/- per 90", "On-Off +/-", "xG +/-", "xG +/- per 90", "xG On-Off",
   "Points per Match", "G+A Per 90", "G+A-PK Per 90", "xG+xA Per 90",
   "npxG+xA Per 90"]

def efficiencyNames : List String :=
  ["Goal Impact per 100 Touches", "xG+xA per 100 Touches", "SCA per 100 Touches",
   "Progressive Pass %", "Key Pass %", "Progressive Carry %",
   "Final Third Entry per Carry %", "Box Entry per Carry %"]

def compositeNames : List String :=
  ["Offensive Efficiency", "Offensive Value Added", "Defensive Value Metric",
   "Direct Play Index", "Pressing Intensity"]

def ltOf : PipeResult → LeagueTable
  | .ok lt _ => lt
  | _ => ⟨[], []⟩

def ptOf : PipeResult → PlayerTable
  | .ok _ pt => pt
  | _ => ⟨[], []⟩

def isOkB : PipeResult → Bool
  | .ok _ _ => true
  | _ => false

def msOf (e : Except PyErr (List LeagueRow)) : List LeagueRow :=
  match e with
  | .ok ms => ms
  | _ => []

def dOf (e : Except PyErr (List (String × ℚ))) : List (String × ℚ) :=
  match e with
  | .ok d => d
  | _ => []

def headLR (lt : LeagueTable) : LeagueRow := lt.rows.headD ⟨"", []⟩

/-- Identity plus defense columns: enough metrics to clear the `> 5` check. -/
def defCols : List String :=
  ["Player", "Competition", "Squad", "Pos", "Tackles Tkl", "Int", "Clr", "Err",
   "Blocks Blocks", "Playing Time 90s"]

def defF : String → ℚ :=
  fOf [("Tackles Tkl", 2), ("Int", 1), ("Clr", 3), ("Err", 1),
       ("Blocks Blocks", 1), ("Playing Time 90s", 2)]

/-- Only the three identity columns (the input named by C1). -/
def c1aT : Table := ⟨["Player", "Competition", "Squad"], constRows 12 "League A" (fOf [])⟩

/-- Identity columns plus `Pos`, still no metric column. -/
def c1bT : Table :=
  ⟨["Player", "Competition", "Squad", "Pos"], constRows 12 "League A" (fOf [])⟩

/-- A qualifying one-league table on which processing succeeds. -/
def c1wT : Table := ⟨defCols, constRows 10 "League A" defF⟩

def c1wLT : LeagueTable := ltOf (process_football_data c1wT)

def c1wPT : PlayerTable := ptOf (process_football_data c1wT)

def c1wMs : List LeagueRow :=
  msOf (buildLM c1wT.cols c1wT.rows ((c1wT.rows.map (fun r => r.comp)).dedup))

def c1wRow : LeagueRow := headLR c1wLT

/-- 12 qualifying rows for League A and 9 (below threshold) for League B. -/
def c2T : Table := ⟨defCols, constRows 12 "League A" defF ++ constRows 9 "League B" defF⟩

def c2LT : LeagueTable := ltOf (process_football_data c2T)

def c2PT : PlayerTable := ptOf (process_football_data c2T)

/-- Take-on columns present with all-zero attempts, plus the defense columns. -/
def c4T : Table :=
  ⟨defCols ++ ["Take-Ons Succ", "Take-Ons Att"], constRows 10 "League A" defF⟩

def c4LT : LeagueTable := ltOf (process_football_data c4T)

def c4PT : PlayerTable := ptOf (process_football_data c4T)

/-- All-zero shooting rows: shot columns present, zero attempts. -/
def c4wL : List Row := constRows 10 "League X" (fOf [])

def c4wD : List (String × ℚ) := dOf (deriveLeague c3T.cols c4wL)

/-- `'Pressure Succ%'` present, `'Pressure Press'` absent. -/
def c5T : Table :=
  ⟨["Player", "Competition", "Squad", "Pos", "Pressure Succ%"],
   constRows 10 "League A" (fOf [])⟩

/-- Corner sub-counts (1+1+1 per row) far below the `Pass Types CK` total (10). -/
def c6T : Table :=
  ⟨["Player", "Competition", "Squad", "Pos", "Pass Types CK", "Corner Kicks In",
    "Corner Kicks Out", "Corner Kicks Str"],
   constRows 10 "League A"
     (fOf [("Pass Types CK", 10), ("Corner Kicks In", 1), ("Corner Kicks Out", 1),
           ("Corner Kicks Str", 1)])⟩

def c6LT : LeagueTable := ltOf (process_football_data c6T)

def c6PT : PlayerTable := ptOf (process_football_data c6T)

/-- Differential operands present (sums 42 and 39.5) but `Standard Sh` absent. -/
def c8T : Table :=
  ⟨defCols ++ ["Performance Gls", "Expected xG"],
   constRows 10 "League A"
     (fOf [("Tackles Tkl", 2), ("Int", 1), ("Clr", 3), ("Err", 1),
           ("Blocks Blocks", 1), ("Playing Time 90s", 2),
           ("Performance Gls", 21/5), ("Expected xG", 79/20)])⟩

def c8LT : LeagueTable := ltOf (process_football_data c8T)

def c8PT : PlayerTable := ptOf (process_football_data c8T)

/-- Like `c8T` but with `Standard Sh` present, so the attack guard passes. -/
def c8wT : Table :=
  ⟨defCols ++ ["Performance Gls", "Expected xG", "Standard Sh"],
   constRows 10 "League A"
     (fOf [("Tackles Tkl", 2), ("Int", 1), ("Clr", 3), ("Err", 1),
           ("Blocks Blocks", 1), ("Playing Time 90s", 2),
           ("Performance Gls", 21/5), ("Expected xG", 79/20), ("Standard Sh", 1)])⟩

def c8wLT : LeagueTable := ltOf (process_football_data c8wT)

def c8wPT : PlayerTable := ptOf (process_football_data c8wT)

def c8wRow : LeagueRow := headLR c8wLT

/-- Tackle-zone columns with per-row counts 1/2/3. -/
def c9wT : Table :=
  ⟨["Player", "Competition", "Squad", "Pos", "Tackles Def 3rd", "Tackles Mid 3rd",
    "Tackles Att 3rd", "Clr", "Err", "Playing Time 90s"],
   constRows 10 "League A"
     (fOf [("Tackles Def 3rd", 1), ("Tackles Mid 3rd", 2), ("Tackles Att 3rd", 3),
           ("Clr", 3), ("Err", 1), ("Playing Time 90s", 2)])⟩

def c9wLT : LeagueTable := ltOf (process_football_data c9wT)

def c9wPT : PlayerTable := ptOf (process_football_data c9wT)

def c9wRow : LeagueRow := headLR c9wLT

/-- The column `k` of a league table, row by row (`none` = NaN). -/
def cellAt (lt : LeagueTable) (k : String) : List (Option ℚ) :=
  lt.rows.map (fun lr => alookup lr.vals k)

theorem alookup_append (a b : List (String × ℚ)) (k : String) :
    alookup (a ++ b) k = ((alookup a k).rec (alookup b k) (fun v => some v)) := by
  induction a with
  | nil => simp [alookup]
  | cons p a ih =>
    by_cases h : p.1 = k <;> simp [alookup, h, ih]

theorem alookup_append_left {a : List (String × ℚ)} {k : String} {v : ℚ}
    (h : alookup a k = some v) (b : List (String × ℚ)) :
    alookup (a ++ b) k = some v := by
  rw [alookup_append, h]

theorem alookup_append_right {a : List (String × ℚ)} {k : String}
    (h : alookup a k = none) (b : List (String × ℚ)) :
    alookup (a ++ b) k = alookup b k := by
  rw [alookup_append, h]

theorem alookup_eq_none_of_not_mem {d : List (String × ℚ)} {k : String}
    (h : ¬ k ∈ d.map Prod.fst) : alookup d k = none := by
  induction d with
  | nil => rfl
  | cons p d ih =>
    simp only [List.map_cons, List.mem_cons, not_or] at h
    have hp : ¬ p.1 = k := fun hh => h.1 hh.symm
    simp [alookup, hp, ih h.2]

theorem mem_keys_of_alookup {d : List (String × ℚ)} {k : String} {v : ℚ}
    (h : alookup d k = some v) : k ∈ d.map Prod.fst := by
  induction d with
  | nil => simp [alookup] at h
  | cons p d ih =>
    by_cases hp : p.1 = k
    · simp [hp]
    · simp only [alookup, hp, if_false] at h
      simp [ih h]

theorem alookup_mapReplace {d : List (String × ℚ)} {k : String} {v : ℚ}
    {k' : String} (h : ¬ k' = k) :
    alookup (d.map (fun p => if p.1 = k then (k, v) else p)) k' = alookup d k' := by
  induction d with
  | nil => rfl
  | cons p d ih =>
    by_cases hp : p.1 = k
    · have h1 : ¬ k = k' := fun hh => h hh.symm
      have h2 : ¬ p.1 = k' := by rw [hp]; exact h1
      simp only [List.map_cons, if_pos hp]
      simp [alookup, h1, h2, ih]
    · simp only [List.map_cons, if_neg hp]
      by_cases hq : p.1 = k' <;> simp [alookup, hq, ih]

theorem alookup_appendOne {d : List (String × ℚ)} {k : String} {v : ℚ}
    {k' : String} (h : ¬ k' = k) :
    alookup (d ++ [(k, v)]) k' = alookup d k' := by
  induction d with
  | nil =>
    have h1 : ¬ k = k' := fun hh => h hh.symm
    simp [alookup, h1]
  | cons p d ih => by_cases hp : p.1 = k' <;> simp [alookup, hp, ih]

theorem alookup_dinsert_ne (d : List (String × ℚ)) (k : String) (v : ℚ)
    {k' : String} (h : ¬ k' = k) : alookup (dinsert d k v) k' = alookup d k' := by
  unfold dinsert
  split
  · exact alookup_mapReplace h
  · exact alookup_appendOne h

theorem alookup_dinsert_self (d : List (String × ℚ)) (k : String) (v : ℚ) :
    alookup (dinsert d k v) k = some v := by
  unfold dinsert
  split
  · rename_i h
    simp only [List.any_eq_true, decide_eq_true_eq] at h
    induction d with
    | nil => simp at h
    | cons p d ih =>
      by_cases hp : p.1 = k
      · simp [alookup, hp]
      · have h' : ∃ x ∈ d, x.1 = k := by
          rcases h with ⟨x, hx, hxk⟩
          rcases List.mem_cons.mp hx with hx1 | hx2
          · exact absurd (hx1 ▸ hxk) hp
          · exact ⟨x, hx2, hxk⟩
        simpa [alookup, hp] using ih h'
  · rename_i h
    simp only [List.any_eq_true, decide_eq_true_eq, not_exists, not_and] at h
    induction d with
    | nil => simp [alookup]
    | cons p d ih =>
      have hp : ¬ p.1 = k := h p (by simp)
      have h' : ∀ x ∈ d, ¬ x.1 = k := fun x hx => h x (by simp [hx])
      simpa [alookup, hp] using ih h'

theorem alookup_cins_self {c : Prop} [Decidable c] (hc : c)
    (k : String) (v : ℚ) (d : List (String × ℚ)) :
    alookup (cins c k v d) k = some v := by
  simp [cins, hc, alookup_dinsert_self]

theorem alookup_cins_ne (c : Prop) [Decidable c] (k : String) (v : ℚ)
    (d : List (String × ℚ)) {k' : String} (h : ¬ k' = k) :
    alookup (cins c k v d) k' = alookup d k' := by
  unfold cins
  split
  · exact alookup_dinsert_ne d k v h
  · rfl

theorem keys_dinsert (d : List (String × ℚ)) (k : String) (v : ℚ) {k' : String}
    (h : k' ∈ (dinsert d k v).map Prod.fst) : k' ∈ d.map Prod.fst ∨ k' = k := by
  unfold dinsert at h
  split at h
  · simp only [List.map_map, List.mem_map, Function.comp] at h
    obtain ⟨p, hp, hk⟩ := h
    by_cases hc : p.1 = k
    · right
      rw [← hk]
      simp [hc]
    · left
      rw [← hk]
      simp only [hc, if_false]
      exact List.mem_map_of_mem _ hp
  · rw [List.map_append, List.mem_append] at h
    rcases h with h | h
    · exact Or.inl h
    · right
      simpa using h

theorem keys_cins (c : Prop) [Decidable c] (k : String) (v : ℚ)
    (d : List (String × ℚ)) {k' : String}
    (h : k' ∈ (cins c k v d).map Prod.fst) : k' ∈ d.map Prod.fst ∨ k' = k := by
  unfold cins at h
  split at h
  · exact keys_dinsert d k v h
  · exact Or.inl h

theorem attackB_ne (cols : List String) (L : List Row) (d : List (String × ℚ))
    {k : String} (hk : ¬ k ∈ attackNames) :
    alookup (attackB cols L d) k = alookup d k := by
  simp only [attackNames, List.mem_cons, List.not_mem_nil, or_false, not_or] at hk
  obtain ⟨h1, h2, h3, h4, h5, h6, h7, h8, h9, h10, h11⟩ := hk
  unfold attackB
  split
  · simp only [alookup_cins_ne _ _ _ _ h2, alookup_cins_ne _ _ _ _ h3,
      alookup_cins_ne _ _ _ _ h4, alookup_cins_ne _ _ _ _ h5,
      alookup_cins_ne _ _ _ _ h6, alookup_cins_ne _ _ _ _ h7,
      alookup_cins_ne _ _ _ _ h8, alookup_cins_ne _ _ _ _ h9,
      alookup_cins_ne _ _ _ _ h10, alookup_cins_ne _ _ _ _ h11,
      alookup_dinsert_ne _ _ _ h1]
  · rfl

theorem gcaB_ne (cols : List String) (L : List Row) (d : List (String × ℚ))
    {k : String} (hk : ¬ k ∈ gcaNames) :
    alookup (gcaB cols L d) k = alookup d k := by
  simp only [gcaNames, List.mem_cons, List.not_mem_nil, or_false, not_or] at hk
  obtain ⟨h1, h2, h3, h4, h5, h6, h7⟩ := hk
  unfold gcaB
  split
  · simp only [alookup_cins_ne _ _ _ _ h2, alookup_cins_ne _ _ _ _ h3,
      alookup_cins_ne _ _ _ _ h4, alookup_cins_ne _ _ _ _ h5,
      alookup_cins_ne _ _ _ _ h6, alookup_cins_ne _ _ _ _ h7,
      alookup_dinsert_ne _ _ _ h1]
  · rfl

theorem threatB_ne (cols : List String) (L : List Row) (d : List (String × ℚ))
    {k : String} (hk : ¬ k ∈ threatNames) :
    alookup (threatB cols L d) k = alookup d k := by
  simp only [threatNames, List.mem_cons, List.not_mem_nil, or_false, not_or] at hk
  obtain ⟨h1, h2, h3⟩ := hk
  unfold threatB
  simp only [alookup_cins_ne _ _ _ _ h1, alookup_cins_ne _ _ _ _ h2,
    alookup_cins_ne _ _ _ _ h3]

theorem defenseB_ne (cols : List String) (L : List Row) (d : List (String × ℚ))
    {k : String} (hk : ¬ k ∈ defenseNames) :
    alookup (defenseB cols L d) k = alookup d k := by
  simp only [defenseNames, List.mem_cons, List.not_mem_nil, or_false, not_or] at hk
  obtain ⟨h1, h2, h3, h4, h5, h6, h7, h8, h9, h10, h11, h12, h13⟩ := hk
  unfold defenseB
  simp only [alookup_cins_ne _ _ _ _ h1, alookup_cins_ne _ _ _ _ h2,
    alookup_cins_ne _ _ _ _ h3, alookup_cins_ne _ _ _ _ h4,
    alookup_cins_ne _ _ _ _ h5, alookup_cins_ne _ _ _ _ h6,
    alookup_cins_ne _ _ _ _ h7, alookup_cins_ne _ _ _ _ h8,
    alookup_cins_ne _ _ _ _ h9, alookup_cins_ne _ _ _ _ h10,
    alookup_cins_ne _ _ _ _ h11, alookup_cins_ne _ _ _ _ h12,
    alookup_cins_ne _ _ _ _ h13]

theorem pressureB_ne (cols : List String) (L : List Row)
    {d d' : List (String × ℚ)} (h : pressureB cols L d = .ok d')
    {k : String} (hk : ¬ k ∈ pressureNames) :
    alookup d' k = alookup d k := by
  simp only [pressureNames, List.mem_cons, List.not_mem_nil, or_false, not_or] at hk
  unfold pressureB filterPos at h
  split at h
  · split at h
    · simp only [Except.map] at h
      cases h
      split <;> exact alookup_dinsert_ne _ _ _ hk
    · simp only [Except.map] at h
      cases h
  · cases h
    rfl

theorem recovB_ne (cols : List String) (L : List Row) (d : List (String × ℚ))
    {k : String} (hk : ¬ k ∈ recovNames) :
    alookup (recovB cols L d) k = alookup d k := by
  simp only [recovNames, List.mem_cons, List.not_mem_nil, or_false, not_or] at hk
  unfold recovB
  simp only [alookup_cins_ne _ _ _ _ hk]

theorem possessionB_ne (cols : List String) (L : List Row) (d : List (String × ℚ))
    {k : String} (hk : ¬ k ∈ possessionNames) :
    alookup (possessionB cols L d) k = alookup d k := by
  simp only [possessionNames, List.mem_cons, List.not_mem_nil, or_false, not_or] at hk
  obtain ⟨h1, h2, h3, h4, h5, h6, h7, h8, h9, h10, h11, h12⟩ := hk
  unfold possessionB
  split
  · simp only [alookup_cins_ne _ _ _ _ h1, alookup_cins_ne _ _ _ _ h2,
      alookup_cins_ne _ _ _ _ h3, alookup_cins_ne _ _ _ _ h4,
      alookup_cins_ne _ _ _ _ h5, alookup_cins_ne _ _ _ _ h6,
      alookup_cins_ne _ _ _ _ h8, alookup_cins_ne _ _ _ _ h9,
      alookup_cins_ne _ _ _ _ h10, alookup_cins_ne _ _ _ _ h11,
      alookup_cins_ne _ _ _ _ h12, alookup_dinsert_ne _ _ _ h7]
  · rfl

theorem retentionB_ne (cols : List String) (L : List Row) (d : List (String × ℚ))
    {k : String} (hk : ¬ k ∈ retentionNames) :
    alookup (retentionB cols L d) k = alookup d k := by
  simp only [retentionNames, List.mem_cons, List.not_mem_nil, or_false, not_or] at hk
  obtain ⟨h1, h2, h3, h4, h5, h6⟩ := hk
  unfold retentionB
  simp only [alookup_cins_ne _ _ _ _ h1, alookup_cins_ne _ _ _ _ h2,
    alookup_cins_ne _ _ _ _ h3, alookup_cins_ne _ _ _ _ h4,
    alookup_cins_ne _ _ _ _ h5, alookup_cins_ne _ _ _ _ h6]

theorem passTypesB_ne (cols : List String) (L : List Row) (d : List (String × ℚ))
    {k : String} (hk : ¬ k ∈ passTypesNames) :
    alookup (passTypesB cols L d) k = alookup d k := by
  simp only [passTypesNames, List.mem_cons, List.not_mem_nil, or_false, not_or] at hk
  obtain ⟨h1, h2, h3⟩ := hk
  unfold passTypesB
  simp only [alookup_cins_ne _ _ _ _ h1, alookup_cins_ne _ _ _ _ h2,
    alookup_cins_ne _ _ _ _ h3]

theorem passCompB_ne (cols : List String) (L : List Row)
    {d d' : List (String × ℚ)} (h : passCompB cols L d = .ok d')
    {k : String} (hk : ¬ k ∈ passCompNames) :
    alookup d' k = alookup d k := by
  simp only [passCompNames, List.mem_cons, List.not_mem_nil, or_false, not_or] at hk
  unfold passCompB filterPos at h
  split at h
  · split at h
    · simp only [Except.map] at h
      cases h
      split <;> exact alookup_dinsert_ne _ _ _ hk
    · simp only [Except.map] at h
      cases h
  · cases h
    rfl

theorem passingB_ne (cols : List String) (L : List Row) (d : List (String × ℚ))
    {k : String} (hk : ¬ k ∈ passingNames) :
    alookup (passingB cols L d) k = alookup d k := by
  simp only [passingNames, List.mem_cons, List.not_mem_nil, or_false, not_or] at hk
  obtain ⟨h1, h2, h3, h4, h5, h6, h7, h8, h9, h10, h11, h12, h13, h14, h15,
    h16, h17, h18⟩ := hk
  unfold passingB
  simp only [alookup_cins_ne _ _ _ _ h1, alookup_cins_ne _ _ _ _ h2,
    alookup_cins_ne _ _ _ _ h3, alookup_cins_ne _ _ _ _ h4,
    alookup_cins_ne _ _ _ _ h5, alookup_cins_ne _ _ _ _ h6,
    alookup_cins_ne _ _ _ _ h7, alookup_cins_ne _ _ _ _ h8,
    alookup_cins_ne _ _ _ _ h9, alookup_cins_ne _ _ _ _ h10,
    alookup_cins_ne _ _ _ _ h11, alookup_cins_ne _ _ _ _ h12,
    alookup_cins_ne _ _ _ _ h13, alookup_cins_ne _ _ _ _ h14,
    alookup_cins_ne _ _ _ _ h15, alookup_cins_ne _ _ _ _ h16,
    alookup_cins_ne _ _ _ _ h17, alookup_cins_ne _ _ _ _ h18]

theorem impactB_ne (cols : List String) (L : List Row) (d : List (String × ℚ))
    {k : String} (hk : ¬ k ∈ impactNames) :
    alookup (impactB cols L d) k = alookup d k := by
  simp only [impactNames, List.mem_cons, List.not_mem_nil, or_false, not_or] at hk
  obtain ⟨h1, h2, h3, h4, h5, h6, h7, h8, h9, h10, h11⟩ := hk
  unfold impactB
  simp only [alookup_cins_ne _ _ _ _ h1, alookup_cins_ne _ _ _ _ h2,
    alookup_cins_ne _ _ _ _ h3, alookup_cins_ne _ _ _ _ h4,
    alookup_cins_ne _ _ _ _ h5, alookup_cins_ne _ _ _ _ h6,
    alookup_cins_ne _ _ _ _ h7, alookup_cins_ne _ _ _ _ h8,
    alookup_cins_ne _ _ _ _ h9, alookup_cins_ne _ _ _ _ h10,
    alookup_cins_ne _ _ _ _ h11]

theorem efficiencyB_ne (cols : List String) (L : List Row) (d : List (String × ℚ))
    {k : String} (hk : ¬ k ∈ efficiencyNames) :
    alookup (efficiencyB cols L d) k = alookup d k := by
  simp only [efficiencyNames, List.mem_cons, List.not_mem_nil, or_false, not_or] at hk
  obtain ⟨h1, h2, h3, h4, h5, h6, h7, h8⟩ := hk
  unfold efficiencyB
  simp only [alookup_cins_ne _ _ _ _ h1, alookup_cins_ne _ _ _ _ h2,
    alookup_cins_ne _ _ _ _ h3, alookup_cins_ne _ _ _ _ h4,
    alookup_cins_ne _ _ _ _ h5, alookup_cins_ne _ _ _ _ h6,
    alookup_cins_ne _ _ _ _ h7, alookup_cins_ne _ _ _ _ h8]

theorem compositeB_ne (cols : List String) (L : List Row) (d : List (String × ℚ))
    {k : String} (hk : ¬ k ∈ compositeNames) :
    alookup (compositeB cols L d) k = alookup d k := by
  simp only [compositeNames, List.mem_cons, List.not_mem_nil, or_false, not_or] at hk
  obtain ⟨h1, h2, h3, h4, h5⟩ := hk
  unfold compositeB
  simp only [alookup_cins_ne _ _ _ _ h1, alookup_cins_ne _ _ _ _ h2,
    alookup_cins_ne _ _ _ _ h3, alookup_cins_ne _ _ _ _ h4,
    alookup_cins_ne _ _ _ _ h5]

theorem cornerB_ne (cols : List String) (L : List Row)
    {d d' : List (String × ℚ)} (h : cornerB cols L d = .ok d')
    {k : String} (hk : ¬ k ∈ cornerNames) :
    alookup d' k = alookup d k := by
  simp only [cornerNames, List.mem_cons, List.not_mem_nil, or_false, not_or] at hk
  obtain ⟨h1, h2, h3, h4, h5, h6, h7⟩ := hk
  unfold cornerB at h
  split at h
  · split at h
    · cases h
    · cases h
      rw [alookup_cins_ne _ _ _ _ h7]
      rw [alookup_dinsert_ne _ _ _ h6]
      split
      · split <;>
          simp only [alookup_dinsert_ne _ _ _ h5, alookup_cins_ne _ _ _ _ h4,
            alookup_cins_ne _ _ _ _ h3, alookup_cins_ne _ _ _ _ h2] <;>
          split <;> simp only [alookup_dinsert_ne _ _ _ h1]
      · simp only [alookup_cins_ne _ _ _ _ h4, alookup_cins_ne _ _ _ _ h3,
          alookup_cins_ne _ _ _ _ h2]
        split <;> simp only [alookup_dinsert_ne _ _ _ h1]
  · cases h
    rw [alookup_cins_ne _ _ _ _ h7]

/-- The decomposition of a successful derivation into its stages. -/
theorem deriveLeague_ok {cols : List String} {L : List Row}
    {dd : List (String × ℚ)} (h : deriveLeague cols L = .ok dd) :
    ∃ d5 d10 d12,
      pressureB cols L
          (defenseB cols L (threatB cols L (gcaB cols L (attackB cols L [])))) =
        .ok d5 ∧
      passCompB cols L
          (passTypesB cols L (retentionB cols L (possessionB cols L
            (recovB cols L d5)))) = .ok d10 ∧
      cornerB cols L (passingB cols L d10) = .ok d12 ∧
      dd = compositeB cols L (efficiencyB cols L (impactB cols L d12)) := by
  unfold deriveLeague at h
  split at h
  · cases h
  · split at h
    · cases h
    · split at h
      · cases h
      · cases h
        rename_i x1 a h5 x2 b h10 x3 c h12
        exact ⟨a, b, c, h5, h10, h12, rfl⟩

theorem attackB_skip (cols : List String) (L : List Row) (d : List (String × ℚ))
    (h : ¬ ("Standard Sh" ∈ cols ∧ "Playing Time 90s" ∈ cols)) :
    attackB cols L d = d := by
  unfold attackB
  exact if_neg h

theorem possessionB_skip (cols : List String) (L : List Row) (d : List (String × ℚ))
    (h : ¬ "Touches Touches" ∈ cols) : possessionB cols L d = d := by
  unfold possessionB
  exact if_neg h

/-- Inside the possession block the literal 50 is always written. -/
theorem possessionB_poss (cols : List String) (L : List Row) (d : List (String × ℚ))
    (h : "Touches Touches" ∈ cols) :
    alookup (possessionB cols L d) "Possession %" = some 50 := by
  unfold possessionB
  rw [if_pos h]
  rw [alookup_cins_ne _ _ _ _ (by decide), alookup_cins_ne _ _ _ _ (by decide),
    alookup_cins_ne _ _ _ _ (by decide), alookup_cins_ne _ _ _ _ (by decide),
    alookup_cins_ne _ _ _ _ (by decide)]
  exact alookup_dinsert_self _ _ _

/-- The shot-on-target branch of the attack block. -/
theorem attackB_sot (cols : List String) (L : List Row) (d : List (String × ℚ))
    (h1 : "Standard Sh" ∈ cols) (h2 : "Playing Time 90s" ∈ cols)
    (h3 : "Standard SoT" ∈ cols) :
    alookup (attackB cols L d) "Shot on Target %" =
      some (if 0 < colSum L "Standard Sh" then
        100 * colSum L "Standard SoT" / colSum L "Standard Sh" else 0) := by
  unfold attackB
  rw [if_pos ⟨h1, h2⟩]
  rw [alookup_cins_ne _ _ _ _ (by decide), alookup_cins_ne _ _ _ _ (by decide),
    alookup_cins_ne _ _ _ _ (by decide), alookup_cins_ne _ _ _ _ (by decide),
    alookup_cins_ne _ _ _ _ (by decide), alookup_cins_ne _ _ _ _ (by decide),
    alookup_cins_ne _ _ _ _ (by decide), alookup_cins_ne _ _ _ _ (by decide),
    alookup_cins_ne _ _ _ _ (by decide)]
  exact alookup_cins_self h3 _ _ _

/-- The finishing-quality branch of the attack block. -/
theorem attackB_gxg (cols : List String) (L : List Row) (d : List (String × ℚ))
    (h1 : "Standard Sh" ∈ cols) (h2 : "Playing Time 90s" ∈ cols)
    (h3 : "Performance Gls" ∈ cols) (h4 : "Expected xG" ∈ cols) :
    alookup (attackB cols L d) "G-xG" =
      some (colSum L "Performance Gls" - colSum L "Expected xG") := by
  unfold attackB
  rw [if_pos ⟨h1, h2⟩]
  rw [alookup_cins_ne _ _ _ _ (by decide), alookup_cins_ne _ _ _ _ (by decide),
    alookup_cins_ne _ _ _ _ (by decide), alookup_cins_ne _ _ _ _ (by decide)]
  exact alookup_cins_self ⟨h3, h4⟩ _ _ _

/-- The three tackle-zone percentages of the defense block. -/
theorem defenseB_zones (cols : List String) (L : List Row) (d : List (String × ℚ))
    (h1 : "Tackles Def 3rd" ∈ cols) (h2 : "Tackles Mid 3rd" ∈ cols)
    (h3 : "Tackles Att 3rd" ∈ cols)
    (hpos : 0 < colSum L "Tackles Def 3rd" + colSum L "Tackles Mid 3rd" +
        colSum L "Tackles Att 3rd") :
    alookup (defenseB cols L d) "Def 3rd Tackles %" =
      some (100 * colSum L "Tackles Def 3rd" /
        (colSum L "Tackles Def 3rd" + colSum L "Tackles Mid 3rd" +
         colSum L "Tackles Att 3rd")) ∧
    alookup (defenseB cols L d) "Mid 3rd Tackles %" =
      some (100 * colSum L "Tackles Mid 3rd" /
        (colSum L "Tackles Def 3rd" + colSum L "Tackles Mid 3rd" +
         colSum L "Tackles Att 3rd")) ∧
    alookup (defenseB cols L d) "Att 3rd Tackles %" =
      some (100 * colSum L "Tackles Att 3rd" /
        (colSum L "Tackles Def 3rd" + colSum L "Tackles Mid 3rd" +
         colSum L "Tackles Att 3rd")) := by
  unfold defenseB
  refine ⟨?_, ?_, ?_⟩
  · rw [alookup_cins_ne _ _ _ _ (by decide), alookup_cins_ne _ _ _ _ (by decide),
      alookup_cins_ne _ _ _ _ (by decide)]
    exact alookup_cins_self ⟨h1, h2, h3, hpos⟩ _ _ _
  · rw [alookup_cins_ne _ _ _ _ (by decide), alookup_cins_ne _ _ _ _ (by decide)]
    exact alookup_cins_self ⟨h1, h2, h3, hpos⟩ _ _ _
  · rw [alookup_cins_ne _ _ _ _ (by decide)]
    exact alookup_cins_self ⟨h1, h2, h3, hpos⟩ _ _ _

/-- The pressing-intensity composite. -/
theorem compositeB_pressing (cols : List String) (L : List Row)
    (d : List (String × ℚ))
    (h1 : "Tackles Att 3rd" ∈ cols) (h2 : "Tackles Mid 3rd" ∈ cols)
    (h3 : "Tackles Def 3rd" ∈ cols)
    (hpos : 0 < colSum L "Tackles Att 3rd" + colSum L "Tackles Mid 3rd" +
        colSum L "Tackles Def 3rd") :
    alookup (compositeB cols L d) "Pressing Intensity" =
      some ((3 * colSum L "Tackles Att 3rd" + 2 * colSum L "Tackles Mid 3rd" +
             colSum L "Tackles Def 3rd") /
            (colSum L "Tackles Att 3rd" + colSum L "Tackles Mid 3rd" +
             colSum L "Tackles Def 3rd")) := by
  unfold compositeB
  exact alookup_cins_self ⟨h1, h2, h3, hpos⟩ _ _ _

/-- When the touches column is present, every successful derivation carries
the literal `Possession % = 50`. -/
theorem derive_possession_some {cols : List String} {L : List Row}
    {dd : List (String × ℚ)} (ht : "Touches Touches" ∈ cols)
    (h : deriveLeague cols L = .ok dd) : alookup dd "Possession %" = some 50 := by
  obtain ⟨d5, d10, d12, h5, h10, h12, hdd⟩ := deriveLeague_ok h
  subst hdd
  rw [compositeB_ne _ _ _ (by decide), efficiencyB_ne _ _ _ (by decide),
    impactB_ne _ _ _ (by decide), cornerB_ne _ _ h12 (by decide),
    passingB_ne _ _ _ (by decide), passCompB_ne _ _ h10 (by decide),
    passTypesB_ne _ _ _ (by decide), retentionB_ne _ _ _ (by decide)]
  exact possessionB_poss _ _ _ ht

/-- When the touches column is absent, no stage writes `Possession %`. -/
theorem derive_possession_none {cols : List String} {L : List Row}
    {dd : List (String × ℚ)} (ht : ¬ "Touches Touches" ∈ cols)
    (h : deriveLeague cols L = .ok dd) : alookup dd "Possession %" = none := by
  obtain ⟨d5, d10, d12, h5, h10, h12, hdd⟩ := deriveLeague_ok h
  subst hdd
  rw [compositeB_ne _ _ _ (by decide), efficiencyB_ne _ _ _ (by decide),
    impactB_ne _ _ _ (by decide), cornerB_ne _ _ h12 (by decide),
    passingB_ne _ _ _ (by decide), passCompB_ne _ _ h10 (by decide),
    passTypesB_ne _ _ _ (by decide), retentionB_ne _ _ _ (by decide),
    possessionB_skip _ _ _ ht, recovB_ne _ _ _ (by decide),
    pressureB_ne _ _ h5 (by decide), defenseB_ne _ _ _ (by decide),
    threatB_ne _ _ _ (by decide), gcaB_ne _ _ _ (by decide),
    attackB_ne _ _ _ (by decide)]
  rfl

/-- Zero shot attempts with the columns present yield the literal 0. -/
theorem derive_sot_zero {cols : List String} {L : List Row}
    {dd : List (String × ℚ)} (h1 : "Standard Sh" ∈ cols)
    (h2 : "Playing Time 90s" ∈ cols) (h3 : "Standard SoT" ∈ cols)
    (hz : colSum L "Standard Sh" = 0)
    (h : deriveLeague cols L = .ok dd) :
    alookup dd "Shot on Target %" = some 0 := by
  obtain ⟨d5, d10, d12, h5, h10, h12, hdd⟩ := deriveLeague_ok h
  subst hdd
  rw [compositeB_ne _ _ _ (by decide), efficiencyB_ne _ _ _ (by decide),
    impactB_ne _ _ _ (by decide), cornerB_ne _ _ h12 (by decide),
    passingB_ne _ _ _ (by decide), passCompB_ne _ _ h10 (by decide),
    passTypesB_ne _ _ _ (by decide), retentionB_ne _ _ _ (by decide),
    possessionB_ne _ _ _ (by decide), recovB_ne _ _ _ (by decide),
    pressureB_ne _ _ h5 (by decide), defenseB_ne _ _ _ (by decide),
    threatB_ne _ _ _ (by decide), gcaB_ne _ _ _ (by decide)]
  rw [attackB_sot _ _ _ h1 h2 h3, hz]
  simp

/-- With the attempts column (`Standard Sh`) absent, no stage ever writes
`Shot on Target %`. -/
theorem derive_sot_none {cols : List String} {L : List Row}
    {dd : List (String × ℚ)} (h1 : ¬ "Standard Sh" ∈ cols)
    (h : deriveLeague cols L = .ok dd) :
    alookup dd "Shot on Target %" = none := by
  obtain ⟨d5, d10, d12, h5, h10, h12, hdd⟩ := deriveLeague_ok h
  subst hdd
  rw [compositeB_ne _ _ _ (by decide), efficiencyB_ne _ _ _ (by decide),
    impactB_ne _ _ _ (by decide), cornerB_ne _ _ h12 (by decide),
    passingB_ne _ _ _ (by decide), passCompB_ne _ _ h10 (by decide),
    passTypesB_ne _ _ _ (by decide), retentionB_ne _ _ _ (by decide),
    possessionB_ne _ _ _ (by decide), recovB_ne _ _ _ (by decide),
    pressureB_ne _ _ h5 (by decide), defenseB_ne _ _ _ (by decide),
    threatB_ne _ _ _ (by decide), gcaB_ne _ _ _ (by decide),
    attackB_skip _ _ _ (fun hc => h1 hc.1)]
  rfl

/-- The finishing-quality differential in a successful derivation. -/
theorem derive_gxg {cols : List String} {L : List Row}
    {dd : List (String × ℚ)} (h1 : "Standard Sh" ∈ cols)
    (h2 : "Playing Time 90s" ∈ cols) (h3 : "Performance Gls" ∈ cols)
    (h4 : "Expected xG" ∈ cols)
    (h : deriveLeague cols L = .ok dd) :
    alookup dd "G-xG" =
      some (colSum L "Performance Gls" - colSum L "Expected xG") := by
  obtain ⟨d5, d10, d12, h5, h10, h12, hdd⟩ := deriveLeague_ok h
  subst hdd
  rw [compositeB_ne _ _ _ (by decide), efficiencyB_ne _ _ _ (by decide),
    impactB_ne _ _ _ (by decide), cornerB_ne _ _ h12 (by decide),
    passingB_ne _ _ _ (by decide), passCompB_ne _ _ h10 (by decide),
    passTypesB_ne _ _ _ (by decide), retentionB_ne _ _ _ (by decide),
    possessionB_ne _ _ _ (by decide), recovB_ne _ _ _ (by decide),
    pressureB_ne _ _ h5 (by decide), defenseB_ne _ _ _ (by decide),
    threatB_ne _ _ _ (by decide), gcaB_ne _ _ _ (by decide)]
  exact attackB_gxg _ _ _ h1 h2 h3 h4

/-- The tackle-zone distribution in a successful derivation. -/
theorem derive_zones {cols : List String} {L : List Row}
    {dd : List (String × ℚ)} (h1 : "Tackles Def 3rd" ∈ cols)
    (h2 : "Tackles Mid 3rd" ∈ cols) (h3 : "Tackles Att 3rd" ∈ cols)
    (hpos : 0 < colSum L "Tackles Def 3rd" + colSum L "Tackles Mid 3rd" +
        colSum L "Tackles Att 3rd")
    (h : deriveLeague cols L = .ok dd) :
    alookup dd "Def 3rd Tackles %" =
      some (100 * colSum L "Tackles Def 3rd" /
        (colSum L "Tackles Def 3rd" + colSum L "Tackles Mid 3rd" +
         colSum L "Tackles Att 3rd")) ∧
    alookup dd "Mid 3rd Tackles %" =
      some (100 * colSum L "Tackles Mid 3rd" /
        (colSum L "Tackles Def 3rd" + colSum L "Tackles Mid 3rd" +
         colSum L "Tackles Att 3rd")) ∧
    alookup dd "Att 3rd Tackles %" =
      some (100 * colSum L "Tackles Att 3rd" /
        (colSum L "Tackles Def 3rd" + colSum L "Tackles Mid 3rd" +
         colSum L "Tackles Att 3rd")) := by
  obtain ⟨d5, d10, d12, h5, h10, h12, hdd⟩ := deriveLeague_ok h
  subst hdd
  refine ⟨?_, ?_, ?_⟩ <;>
    rw [compositeB_ne _ _ _ (by decide), efficiencyB_ne _ _ _ (by decide),
      impactB_ne _ _ _ (by decide), cornerB_ne _ _ h12 (by decide),
      passingB_ne _ _ _ (by decide), passCompB_ne _ _ h10 (by decide),
      passTypesB_ne _ _ _ (by decide), retentionB_ne _ _ _ (by decide),
      possessionB_ne _ _ _ (by decide), recovB_ne _ _ _ (by decide),
      pressureB_ne _ _ h5 (by decide)]
  · exact (defenseB_zones _ _ _ h1 h2 h3 hpos).1
  · exact (defenseB_zones _ _ _ h1 h2 h3 hpos).2.1
  · exact (defenseB_zones _ _ _ h1 h2 h3 hpos).2.2

/-- The pressing-intensity composite in a successful derivation. -/
theorem derive_pressing {cols : List String} {L : List Row}
    {dd : List (String × ℚ)} (h1 : "Tackles Att 3rd" ∈ cols)
    (h2 : "Tackles Mid 3rd" ∈ cols) (h3 : "Tackles Def 3rd" ∈ cols)
    (hpos : 0 < colSum L "Tackles Att 3rd" + colSum L "Tackles Mid 3rd" +
        colSum L "Tackles Def 3rd")
    (h : deriveLeague cols L = .ok dd) :
    alookup dd "Pressing Intensity" =
      some ((3 * colSum L "Tackles Att 3rd" + 2 * colSum L "Tackles Mid 3rd" +
             colSum L "Tackles Def 3rd") /
            (colSum L "Tackles Att 3rd" + colSum L "Tackles Mid 3rd" +
             colSum L "Tackles Def 3rd")) := by
  obtain ⟨d5, d10, d12, h5, h10, h12, hdd⟩ := deriveLeague_ok h
  subst hdd
  exact compositeB_pressing _ _ _ h1 h2 h3 hpos

/-- Every emitted league record comes from a partition of at least 10 rows
whose derivation succeeded with more than 4 metric entries. -/
theorem buildLM_mem {cols : List String} {rows : List Row} {lgs : List String}
    {ms : List LeagueRow} (h : buildLM cols rows lgs = .ok ms)
    {lr : LeagueRow} (hlr : lr ∈ ms) :
    10 ≤ (rows.filter (fun r => r.comp = lr.league)).length ∧
    deriveLeague cols (rows.filter (fun r => r.comp = lr.league)) = .ok lr.vals ∧
    4 < lr.vals.length := by
  induction lgs generalizing ms with
  | nil =>
    cases h
    cases hlr
  | cons lg rest ih =>
    simp only [buildLM] at h
    by_cases hlen : (rows.filter (fun r => r.comp = lg)).length < 10
    · rw [if_pos hlen] at h
      exact ih h hlr
    · rw [if_neg hlen] at h
      rcases hd : deriveLeague cols (rows.filter (fun r => r.comp = lg)) with e | d
      · rw [hd] at h
        exact Except.noConfusion h
      · rw [hd] at h
        rcases ht : buildLM cols rows rest with e2 | tail
        · rw [ht] at h
          exact Except.noConfusion h
        · rw [ht] at h
          dsimp only at h
          by_cases hc : d.length + 1 > 5
          · rw [if_pos hc] at h
            injection h with h'
            subst h'
            rcases List.mem_cons.mp hlr with he | he
            · subst he
              exact ⟨Nat.le_of_not_lt hlen, hd, by show 4 < d.length; omega⟩
            · exact ih ht he
          · rw [if_neg hc] at h
            injection h with h'
            subst h'
            exact ih ht hlr

/-- A league whose partition reaches the threshold, derives successfully and
passes the entry-count check is emitted. -/
theorem buildLM_present {cols : List String} {rows : List Row} {lgs : List String}
    {ms : List LeagueRow} (h : buildLM cols rows lgs = .ok ms)
    {lg : String} (hmem : lg ∈ lgs)
    (hlen : ¬ (rows.filter (fun r => r.comp = lg)).length < 10)
    {d : List (String × ℚ)}
    (hd : deriveLeague cols (rows.filter (fun r => r.comp = lg)) = .ok d)
    (hcount : d.length + 1 > 5) :
    (⟨lg, d⟩ : LeagueRow) ∈ ms := by
  induction lgs generalizing ms with
  | nil => cases hmem
  | cons lg0 rest ih =>
    simp only [buildLM] at h
    rcases List.mem_cons.mp hmem with he | he
    · subst he
      rw [if_neg hlen, hd] at h
      rcases ht : buildLM cols rows rest with e2 | tail
      · rw [ht] at h
        exact Except.noConfusion h
      · rw [ht] at h
        dsimp only at h
        rw [if_pos hcount] at h
        injection h with h'
        subst h'
        exact List.mem_cons_self _ _
    · by_cases hlen0 : (rows.filter (fun r => r.comp = lg0)).length < 10
      · rw [if_pos hlen0] at h
        exact ih h he
      · rw [if_neg hlen0] at h
        rcases hd0 : deriveLeague cols (rows.filter (fun r => r.comp = lg0)) with e | d0
        · rw [hd0] at h
          exact Except.noConfusion h
        · rw [hd0] at h
          rcases ht : buildLM cols rows rest with e2 | tail
          · rw [ht] at h
            exact Except.noConfusion h
          · rw [ht] at h
            dsimp only at h
            by_cases hc : d0.length + 1 > 5
            · rw [if_pos hc] at h
              injection h with h'
              subst h'
              exact List.mem_cons_of_mem _ (ih ht he)
            · rw [if_neg hc] at h
              injection h with h'
              subst h'
              exact ih ht he

/-- A league below the threshold is never emitted. -/
theorem buildLM_absent {cols : List String} {rows : List Row} {lgs : List String}
    {ms : List LeagueRow} (h : buildLM cols rows lgs = .ok ms)
    {lg : String} (hlen : (rows.filter (fun r => r.comp = lg)).length < 10) :
    ∀ lr ∈ ms, lr.league ≠ lg := by
  intro lr hlr he
  have hge := (buildLM_mem h hlr).1
  rw [he] at hge
  omega

/-- Filtering an association list by a predicate that holds on every entry
with key `k` does not change the lookup of `k`. -/
theorem alookup_filter {l : List (String × ℚ)} {q : String × ℚ → Bool} {k : String}
    (hall : ∀ v, (k, v) ∈ l → q (k, v) = true) :
    alookup (l.filter q) k = alookup l k := by
  induction l with
  | nil => rfl
  | cons p l ih =>
    have hall' : ∀ v, (k, v) ∈ l → q (k, v) = true :=
      fun v hv => hall v (List.mem_cons_of_mem _ hv)
    by_cases hk : p.1 = k
    · have hp : p = (k, p.2) := by rw [← hk]
      have hq : q p = true := by
        rw [hp]
        refine hall p.2 ?_
        rw [← hp]
        exact List.mem_cons_self p l
      simp [List.filter_cons, hq, alookup, hk, ih hall']
    · rcases hq : q p with _ | _ <;>
        simp [List.filter_cons, hq, alookup, hk, ih hall']

/-- A key of any emitted record is among the derived columns. -/
theorem mem_derivedCols {ms : List LeagueRow} {r0 : LeagueRow} (hr : r0 ∈ ms)
    {k : String} (hk : k ∈ r0.vals.map Prod.fst) : k ∈ derivedColsOf ms := by
  unfold derivedColsOf
  rw [List.mem_dedup, List.mem_flatten]
  exact ⟨r0.vals.map Prod.fst, List.mem_map_of_mem _ hr, hk⟩

/-- Every output row of the defaulting pass is a wrapped derived record. -/
theorem fillDefaults_rows {ms : List LeagueRow} {r : LeagueRow}
    (hr : r ∈ (fillDefaults ms).rows) :
    ∃ r0 ∈ ms, r.league = r0.league ∧
      r.vals = r0.vals ++
        defaultValues.filter (fun p => ¬ p.1 ∈ derivedColsOf ms) := by
  unfold fillDefaults at hr
  simp only [List.mem_map] at hr
  obtain ⟨r0, hr0, he⟩ := hr
  exact ⟨r0, hr0, by rw [← he], by rw [← he]⟩

/-- Every catalog column is a column of the final league table. -/
theorem fillDefaults_mem_cols {ms : List LeagueRow} {c : String} {v : ℚ}
    (h : alookup defaultValues c = some v) : c ∈ (fillDefaults ms).cols := by
  unfold fillDefaults
  by_cases hc : c ∈ derivedColsOf ms
  · exact List.mem_append_left _ hc
  · refine List.mem_append_right _ ?_
    refine mem_keys_of_alookup (v := v) ?_
    rw [alookup_filter ?_]
    · exact h
    · intro w hw
      simp [hc]

/-- A catalog metric no league derived is filled with its default in every
output row. -/
theorem fillDefaults_default_cell {ms : List LeagueRow} {c : String} {v : ℚ}
    (hc : ¬ c ∈ derivedColsOf ms) (h : alookup defaultValues c = some v)
    {r : LeagueRow} (hr : r ∈ (fillDefaults ms).rows) :
    alookup r.vals c = some v := by
  obtain ⟨r0, hr0, _, hv⟩ := fillDefaults_rows hr
  rw [hv]
  have hnone : alookup r0.vals c = none := by
    refine alookup_eq_none_of_not_mem ?_
    intro hmem
    exact hc (mem_derivedCols hr0 hmem)
  rw [alookup_append_right hnone]
  rw [alookup_filter ?_]
  · exact h
  · intro w hw
    simp [hc]

/-- A value a league derived survives the defaulting pass unchanged. -/
theorem fillDefaults_keep_cell {ms : List LeagueRow} {r : LeagueRow}
    (hr : r ∈ (fillDefaults ms).rows) {k : String} :
    ∃ r0 ∈ ms, r.league = r0.league ∧
      (∀ v, alookup r0.vals k = some v → alookup r.vals k = some v) ∧
      (alookup r0.vals k = none → ¬ k ∈ derivedColsOf ms →
        alookup r.vals k = alookup defaultValues k) := by
  obtain ⟨r0, hr0, hl, hv⟩ := fillDefaults_rows hr
  refine ⟨r0, hr0, hl, ?_, ?_⟩
  · intro v hsome
    rw [hv]
    exact alookup_append_left hsome _
  · intro hnone hnc
    rw [hv, alookup_append_right hnone]
    refine alookup_filter ?_
    intro w hw
    simp [hnc]

/-- Decomposition of a successful pipeline run. -/
theorem process_ok {t : Table} {lt : LeagueTable} {pt : PlayerTable}
    (h : process_football_data t = .ok lt pt) :
    ∃ ms, buildLM t.cols t.rows ((t.rows.map (fun r => r.comp)).dedup) = .ok ms ∧
      ms ≠ [] ∧ lt = fillDefaults ms ∧ playerProject t = .ok pt := by
  unfold process_football_data at h
  dsimp only at h
  by_cases hm : (requiredCols.filter (fun c => ¬ c ∈ t.cols)).isEmpty = true
  · rw [if_pos hm] at h
    rcases hb : buildLM t.cols t.rows ((t.rows.map (fun r => r.comp)).dedup)
      with e | ms
    · rw [hb] at h
      dsimp only at h
      exact PipeResult.noConfusion h
    · rw [hb] at h
      dsimp only at h
      rcases hp : playerProject t with e | pt0
      · rw [hp] at h
        dsimp only at h
        exact PipeResult.noConfusion h
      · rw [hp] at h
        dsimp only at h
        by_cases hms : ms.isEmpty = true
        · rw [if_pos hms] at h
          exact PipeResult.noConfusion h
        · rw [if_neg hms] at h
          injection h with h1 h2
          exact ⟨ms, hb, by simpa using hms, h1.symm, by rw [h2]⟩
  · rw [if_neg hm] at h
    exact PipeResult.noConfusion h

/-- The player projection keeps every raw row. -/
theorem playerProject_rows {t : Table} {pt : PlayerTable}
    (h : playerProject t = .ok pt) : pt.rows = t.rows := by
  unfold playerProject at h
  dsimp only at h
  split at h
  · exact Except.noConfusion h
  · injection h with h'
    rw [← h']

/-- A key present in the derived columns is a key of some record. -/
theorem derivedCols_mem {ms : List LeagueRow} {k : String}
    (h : k ∈ derivedColsOf ms) : ∃ r1 ∈ ms, k ∈ r1.vals.map Prod.fst := by
  unfold derivedColsOf at h
  rw [List.mem_dedup, List.mem_flatten] at h
  obtain ⟨l, hl, hk⟩ := h
  rw [List.mem_map] at hl
  obtain ⟨r1, hr1, he⟩ := hl
  exact ⟨r1, hr1, he ▸ hk⟩

theorem alookup_ne_none_of_mem_keys {d : List (String × ℚ)} {k : String}
    (h : k ∈ d.map Prod.fst) : alookup d k ≠ none := by
  induction d with
  | nil => cases h
  | cons p d ih =>
    by_cases hp : p.1 = k
    · simp [alookup, hp]
    · simp only [List.map_cons, List.mem_cons] at h
      rcases h with he | he
      · exact absurd he.symm hp
      · simp [alookup, hp, ih he]

/-- Identity-check success is exactly the presence of the three columns. -/
theorem missing_isEmpty_iff (t : Table) :
    (requiredCols.filter (fun c => ¬ c ∈ t.cols)).isEmpty = true ↔
      ("Player" ∈ t.cols ∧ "Competition" ∈ t.cols ∧ "Squad" ∈ t.cols) := by
  rw [List.isEmpty_iff, List.filter_eq_nil_iff]
  simp [requiredCols]

theorem eq_ok_of_isOkB {p : PipeResult} (h : isOkB p = true) :
    p = .ok (ltOf p) (ptOf p) := by
  cases p with
  | ok lt pt => rfl
  | missingIdentity m => exact Bool.noConfusion h
  | excepted e => exact Bool.noConfusion h
  | insufficient => exact Bool.noConfusion h

/-- C7: the pipeline entry point fails with the structural
missing-identity-columns error — returning no tables — exactly when at least
one of the Player/Competition/Squad identity columns is absent from the
input's column set; when all three are present the run proceeds to
partitioning and derivation (its outcome is then one of the non-identity
results: an exception, the insufficient-metrics warning, or the two tables). -/
theorem C7_missing_identity_iff (t : Table) :
    (∃ missing, process_football_data t = .missingIdentity missing) ↔
      ¬ ("Player" ∈ t.cols ∧ "Competition" ∈ t.cols ∧ "Squad" ∈ t.cols) := by
  constructor
  · rintro ⟨missing, h⟩ hall
    unfold process_football_data at h
    dsimp only at h
    rw [if_pos ((missing_isEmpty_iff t).mpr hall)] at h
    rcases hb : buildLM t.cols t.rows ((t.rows.map (fun r => r.comp)).dedup)
      with e | ms
    · rw [hb] at h
      dsimp only at h
      exact PipeResult.noConfusion h
    · rw [hb] at h
      dsimp only at h
      rcases hp : playerProject t with e | pt
      · rw [hp] at h
        dsimp only at h
        exact PipeResult.noConfusion h
      · rw [hp] at h
        dsimp only at h
        by_cases hms : ms.isEmpty = true
        · rw [if_pos hms] at h
          exact PipeResult.noConfusion h
        · rw [if_neg hms] at h
          exact PipeResult.noConfusion h
  · intro hnot
    refine ⟨requiredCols.filter (fun c => ¬ c ∈ t.cols), ?_⟩
    unfold process_football_data
    dsimp only
    rw [if_neg (fun he => hnot ((missing_isEmpty_iff t).mp he))]

/-- C7 witness: on a table lacking `Competition` the error fires, and on a
complete table it does not. -/
theorem C7_witness :
    (∃ missing, process_football_data
        (⟨["Player", "Squad"], []⟩ : Table) = .missingIdentity missing) ∧
    ¬ (∃ missing, process_football_data c1wT = .missingIdentity missing) :=
  ⟨(C7_missing_identity_iff ⟨["Player", "Squad"], []⟩).mpr (by decide),
   fun hc => ((C7_missing_identity_iff c1wT).mp hc) (by decide)⟩

/-- C10: in every league row of the output league table, for every input,
`Possession %` equals the constant 50: when `Touches Touches` is present the
derivation assigns the literal 50 (line 247), and when it is absent the
defaulting pass fills the catalog's 50 (lines 666, 743-745). -/
theorem C10_possession_constant (t : Table) (lt : LeagueTable) (pt : PlayerTable)
    (h : process_football_data t = .ok lt pt) :
    ∀ r ∈ lt.rows, alookup r.vals "Possession %" = some 50 := by
  intro r hr
  obtain ⟨ms, hb, hne, hlt, hpp⟩ := process_ok h
  subst hlt
  obtain ⟨r0, hr0, hleague, hkeep, hdef⟩ := fillDefaults_keep_cell (k := "Possession %") hr
  have hd := (buildLM_mem hb hr0).2.1
  by_cases ht : "Touches Touches" ∈ t.cols
  · exact hkeep 50 (derive_possession_some ht hd)
  · have hnone : alookup r0.vals "Possession %" = none := derive_possession_none ht hd
    have hnc : ¬ "Possession %" ∈ derivedColsOf ms := by
      intro hmem
      obtain ⟨r1, hr1, hk1⟩ := derivedCols_mem hmem
      exact alookup_ne_none_of_mem_keys hk1
        (derive_possession_none ht (buildLM_mem hb hr1).2.1)
    rw [hdef hnone hnc]
    with_unfolding_all rfl

/-- C10 witness: a concrete successful run (no touches column in `c1wT`, so
the 50 here comes from the defaulting pass). -/
theorem C10_witness : alookup c1wRow.vals "Possession %" = some 50 :=
  C10_possession_constant c1wT c1wLT c1wPT (by with_unfolding_all rfl) c1wRow
    (by with_unfolding_all exact List.mem_cons_self _ _)

/-- C1 counterexample: on the input with only the three identity columns the
pipeline returns no league table at all — the player projection's unchecked
`Pos` selection raises `KeyError` (caught into the error return), and even
with `Pos` added no league passes the `> 5`-entries check, so the run ends in
the warning path.  In neither case does a league table with the catalog's
column set exist. -/
theorem C1_counterexample :
    process_football_data c1aT = .excepted (.keyError "Pos") ∧
    process_football_data c1bT = .insufficient :=
  ⟨by with_unfolding_all rfl, by with_unfolding_all rfl⟩

/-- C1 amended: when a league table is returned at all, it contains every
Schema Catalog column, and a catalog metric that no league derived carries
its catalog default — a finite rational — in every league row.  (For an
identity-only input no table is returned; a metric derived by some leagues
only stays missing in the other rows; derived columns outside the catalog
may also appear.) -/
theorem C1_amended (t : Table) (lt : LeagueTable) (pt : PlayerTable)
    (ms : List LeagueRow) (h : process_football_data t = .ok lt pt)
    (hm : buildLM t.cols t.rows ((t.rows.map (fun r => r.comp)).dedup) = .ok ms)
    (c : String) (v : ℚ) (hcv : alookup defaultValues c = some v) :
    c ∈ lt.cols ∧
      (¬ c ∈ derivedColsOf ms → ∀ r ∈ lt.rows, alookup r.vals c = some v) := by
  obtain ⟨ms', hb, hne, hlt, hpp⟩ := process_ok h
  rw [hm] at hb
  injection hb with hbe
  subst hbe
  subst hlt
  exact ⟨fillDefaults_mem_cols hcv,
    fun hnc r hr => fillDefaults_default_cell hnc hcv hr⟩

/-- C1 witness: on `c1wT` the corner metrics are underivable, so the catalog
column `Corners Per Match` exists and is default-filled with 5. -/
theorem C1_witness :
    "Corners Per Match" ∈ c1wLT.cols ∧
      (¬ "Corners Per Match" ∈ derivedColsOf c1wMs →
        ∀ r ∈ c1wLT.rows, alookup r.vals "Corners Per Match" = some 5) :=
  C1_amended c1wT c1wLT c1wPT c1wMs (by with_unfolding_all rfl)
    (by with_unfolding_all rfl) "Corners Per Match" 5 (by with_unfolding_all rfl)

/-- C2 counterexample: League B has 9 rows (one below the threshold), so it is
absent from the league table — but all of its rows are still present in the
player table, because the player projection never filters by league. -/
theorem C2_counterexample :
    process_football_data c2T = .ok c2LT c2PT ∧
    (c2LT.rows.map LeagueRow.league).contains "League B" = false ∧
    (c2PT.rows.map Row.comp).contains "League B" = true :=
  ⟨by with_unfolding_all rfl, by with_unfolding_all rfl, by with_unfolding_all rfl⟩

/-- C2 amended: a league with fewer than 10 rows (the threshold is the
hard-coded literal 10, not an option) is absent from the league table, while
the player table always keeps every raw row, dropped leagues included; a
league at or above the threshold appears in the league table provided its
derivation succeeds with more than 5 dict entries. -/
theorem C2_amended (t : Table) (lt : LeagueTable) (pt : PlayerTable)
    (h : process_football_data t = .ok lt pt) (lg : String) :
    ((t.rows.filter (fun r => r.comp = lg)).length < 10 →
      (∀ lr ∈ lt.rows, lr.league ≠ lg) ∧ pt.rows = t.rows) ∧
    (∀ d, ¬ (t.rows.filter (fun r => r.comp = lg)).length < 10 →
      deriveLeague t.cols (t.rows.filter (fun r => r.comp = lg)) = .ok d →
      d.length + 1 > 5 → ∃ lr ∈ lt.rows, lr.league = lg) := by
  obtain ⟨ms, hb, hne, hlt, hpp⟩ := process_ok h
  subst hlt
  constructor
  · intro hlen
    refine ⟨?_, playerProject_rows hpp⟩
    intro lr hlr he
    obtain ⟨r0, hr0, hleague, hv⟩ := fillDefaults_rows hlr
    exact buildLM_absent hb hlen r0 hr0 (by rw [← hleague, he])
  · intro d hlen hd hcount
    have hpos : 0 < (t.rows.filter (fun r => r.comp = lg)).length := by omega
    obtain ⟨r, hrf⟩ := List.exists_mem_of_length_pos hpos
    have hmem : lg ∈ (t.rows.map (fun r => r.comp)).dedup := by
      rw [List.mem_dedup, List.mem_map]
      obtain ⟨hrt, hrc⟩ := List.mem_filter.mp hrf
      exact ⟨r, hrt, by simpa using hrc⟩
    have hin := buildLM_present hb hmem hlen hd hcount
    refine ⟨⟨lg, d ++ defaultValues.filter
      (fun p => ¬ p.1 ∈ derivedColsOf ms)⟩, ?_, rfl⟩
    unfold fillDefaults
    simp only [List.mem_map]
    exact ⟨⟨lg, d⟩, hin, rfl⟩

/-- C2 witness: at `c2T`, League B (9 rows) and League A (12 rows, 6 derived
metrics) instantiate both halves. -/
theorem C2_witness :
    ((∀ lr ∈ c2LT.rows, lr.league ≠ "League B") ∧ c2PT.rows = c2T.rows) ∧
    (∃ lr ∈ c2LT.rows, lr.league = "League A") :=
  ⟨(C2_amended c2T c2LT c2PT (by with_unfolding_all rfl) "League B").1
      (by with_unfolding_all decide),
   (C2_amended c2T c2LT c2PT (by with_unfolding_all rfl) "League A").2
      (dOf (deriveLeague c2T.cols (c2T.rows.filter (fun r => r.comp = "League A"))))
      (by with_unfolding_all decide) (by with_unfolding_all rfl)
      (by with_unfolding_all decide)⟩

/-- C3 counterexample: on the spec's scenario input (12 League-A rows with
`shots=10, shots_on_target=4, minutes_90s=1`, 5 League-B rows) the pipeline
returns no league table: League A derives only 2 metrics, which fails the
`len(league_data) > 5` check at line 590, so `league_metrics` stays empty and
the warning path returns `(None, None)`. -/
theorem C3_counterexample : process_football_data c3T = .insufficient := by
  with_unfolding_all rfl

/-- C3 amended: League A's derivation does produce exactly
`Shots Per 90 = 10` and `Shot on Target % = 40`, but those are the only two
derived metrics, so the record is discarded by the `> 5`-entries check and no
league table is returned for this input. -/
theorem C3_amended :
    (deriveLeague c3T.cols (c3T.rows.filter (fun r => r.comp = "League A"))).toOption =
      some [("Shots Per 90", 10), ("Shot on Target %", 40)] ∧
    process_football_data c3T = .insufficient :=
  ⟨by with_unfolding_all rfl, by with_unfolding_all rfl⟩

/-- C4 counterexample: `Take-On Success %` is a percentage-of-attempts metric;
on `c4T` its attempts column (`Take-Ons Att`) is present with league sum 0,
yet the league row holds the catalog default 55, not the claimed 0 — the
metric has no `else: 0` branch, it is simply skipped and later defaulted. -/
theorem C4_counterexample :
    process_football_data c4T = .ok c4LT c4PT ∧
    "Take-Ons Att" ∈ c4T.cols ∧
    colSum c4T.rows "Take-Ons Att" = 0 ∧
    cellAt c4LT "Take-On Success %" = [some 55] ∧
    (55 : ℚ) ≠ 0 :=
  ⟨by with_unfolding_all rfl, by decide, by with_unfolding_all rfl,
   by with_unfolding_all rfl, by norm_num⟩

/-- C4 amended: the explicit zero-on-zero-attempts policy holds only for the
percentage metrics written with an `else: 0` branch (here shown for
`Shot on Target %`): with `Standard Sh`, `Playing Time 90s` and
`Standard SoT` present and the league's shot sum 0, the derived value is the
literal 0.  When the attempts column `Standard Sh` is absent entirely, the
metric is underivable everywhere and every league row carries the catalog
default 35.  Percentage metrics without the `else` branch (e.g.
`Take-On Success %`) are skipped on zero attempts and default-filled. -/
theorem C4_amended :
    (∀ (cols : List String) (L : List Row) (dd : List (String × ℚ)),
      "Standard Sh" ∈ cols → "Playing Time 90s" ∈ cols →
      "Standard SoT" ∈ cols → colSum L "Standard Sh" = 0 →
      deriveLeague cols L = .ok dd →
      alookup dd "Shot on Target %" = some 0) ∧
    (∀ (t : Table) (lt : LeagueTable) (pt : PlayerTable),
      process_football_data t = .ok lt pt → ¬ "Standard Sh" ∈ t.cols →
      ∀ r ∈ lt.rows, alookup r.vals "Shot on Target %" = some 35) := by
  constructor
  · intro cols L dd h1 h2 h3 hz h
    exact derive_sot_zero h1 h2 h3 hz h
  · intro t lt pt h habs r hr
    obtain ⟨ms, hb, hne, hlt, hpp⟩ := process_ok h
    subst hlt
    obtain ⟨r0, hr0, hleague, hkeep, hdef⟩ :=
      fillDefaults_keep_cell (k := "Shot on Target %") hr
    have hd := (buildLM_mem hb hr0).2.1
    have hnone : alookup r0.vals "Shot on Target %" = none :=
      derive_sot_none habs hd
    have hnc : ¬ "Shot on Target %" ∈ derivedColsOf ms := by
      intro hmem
      obtain ⟨r1, hr1, hk1⟩ := derivedCols_mem hmem
      exact alookup_ne_none_of_mem_keys hk1
        (derive_sot_none habs (buildLM_mem hb hr1).2.1)
    rw [hdef hnone hnc]
    with_unfolding_all rfl

/-- C4 witness: all-zero shooting rows give the literal 0 at derivation, and
the `c8T` run (no `Standard Sh` column) gives the default 35 in the table. -/
theorem C4_witness :
    alookup c4wD "Shot on Target %" = some 0 ∧
    (∀ r ∈ c8LT.rows, alookup r.vals "Shot on Target %" = some 35) :=
  ⟨C4_amended.1 c3T.cols c4wL c4wD (by decide) (by decide) (by decide)
      (by with_unfolding_all rfl) (by with_unfolding_all rfl),
   C4_amended.2 c8T c8LT c8PT (by with_unfolding_all rfl) (by decide)⟩

/-- C5: the claim is right and the code is wrong.  The derivation pass is
supposed never to raise for any combination of present/absent columns, but
line 218 indexes `league_df['Pressure Press']` guarded only by
`'Pressure Succ%' in df.columns`: on `c5T` (identity columns plus
`Pressure Succ%` alone) a `KeyError('Pressure Press')` escapes the derivation
loop, is caught by the blanket `except` at line 752, and the pipeline aborts
with no tables. -/
theorem C5_pressure_keyerror :
    process_football_data c5T = .excepted (.keyError "Pressure Press") := by
  with_unfolding_all rfl

/-- C6 counterexample: the corner-kick distribution family is normalized by
the separate total column `Pass Types CK`, not by the sum of the sub-counts;
on `c6T` all three sub-metrics are computable and the family total is 100,
yet the percentages are 10+10+10 = 30 — off 100 by 70, far beyond the
tolerance 3e-6. -/
theorem C6_counterexample :
    process_football_data c6T = .ok c6LT c6PT ∧
    cellAt c6LT "In Corner %" = [some 10] ∧
    cellAt c6LT "Out Corner %" = [some 10] ∧
    cellAt c6LT "Str Corner %" = [some 10] ∧
    (10 : ℚ) + 10 + 10 = 30 ∧ (100 : ℚ) - 30 = 70 ∧ ¬ (70 : ℚ) ≤ 3 / 1000000 :=
  ⟨by with_unfolding_all rfl, by with_unfolding_all rfl,
   by with_unfolding_all rfl, by with_unfolding_all rfl,
   by norm_num, by norm_num, by norm_num⟩

/-- C6 amended: the sum-to-100 property holds for the distribution family
whose denominator really is the sum of its sub-counts — the tackle-zone
family: in any qualifying league with all three zone columns present and a
positive zone total, the three zone percentages sum to exactly 100 (ℚ is
exact, so the 1e-6-per-submetric tolerance is met trivially).  Families
normalized by a separate total column (corner types over `Pass Types CK`,
GCA/SCA types over their total columns) sum to 100·(sub-count sum)/total
instead. -/
theorem C6_amended (t : Table) (lt : LeagueTable) (pt : PlayerTable)
    (h : process_football_data t = .ok lt pt) (lr : LeagueRow)
    (hlr : lr ∈ lt.rows) (h1 : "Tackles Def 3rd" ∈ t.cols)
    (h2 : "Tackles Mid 3rd" ∈ t.cols) (h3 : "Tackles Att 3rd" ∈ t.cols)
    (hpos : 0 <
      colSum (t.rows.filter (fun r => r.comp = lr.league)) "Tackles Def 3rd" +
      colSum (t.rows.filter (fun r => r.comp = lr.league)) "Tackles Mid 3rd" +
      colSum (t.rows.filter (fun r => r.comp = lr.league)) "Tackles Att 3rd") :
    ∃ pd pm pa,
      alookup lr.vals "Def 3rd Tackles %" = some pd ∧
      alookup lr.vals "Mid 3rd Tackles %" = some pm ∧
      alookup lr.vals "Att 3rd Tackles %" = some pa ∧
      pd + pm + pa = 100 := by
  obtain ⟨ms, hb, hne, hlt, hpp⟩ := process_ok h
  subst hlt
  obtain ⟨r0, hr0, hleague, hvals⟩ := fillDefaults_rows hlr
  have hd := (buildLM_mem hb hr0).2.1
  rw [hleague] at hpos
  obtain ⟨hzd, hzm, hza⟩ := derive_zones h1 h2 h3 hpos hd
  refine ⟨_, _, _,
    (by rw [hvals]; exact alookup_append_left hzd _),
    (by rw [hvals]; exact alookup_append_left hzm _),
    (by rw [hvals]; exact alookup_append_left hza _), ?_⟩
  have hT : colSum (t.rows.filter (fun r => r.comp = r0.league)) "Tackles Def 3rd" +
      colSum (t.rows.filter (fun r => r.comp = r0.league)) "Tackles Mid 3rd" +
      colSum (t.rows.filter (fun r => r.comp = r0.league)) "Tackles Att 3rd" ≠ 0 :=
    ne_of_gt hpos
  field_simp
  ring

/-- C6 witness: on `c9wT` the zone sums are 10/20/30, and the three
percentages sum to 100. -/
theorem C6_witness :
    ∃ pd pm pa,
      alookup c9wRow.vals "Def 3rd Tackles %" = some pd ∧
      alookup c9wRow.vals "Mid 3rd Tackles %" = some pm ∧
      alookup c9wRow.vals "Att 3rd Tackles %" = some pa ∧
      pd + pm + pa = 100 :=
  C6_amended c9wT c9wLT c9wPT (by with_unfolding_all rfl) c9wRow
    (by with_unfolding_all exact List.mem_cons_self _ _)
    (by decide) (by decide) (by decide) (by with_unfolding_all decide)

/-- C8 counterexample: both operand columns of the `G-xG` differential are
present with league sums 42 and 39.5, yet the league row's `G-xG` is the
catalog default 0, not 2.5 — the differential at lines 116-117 sits inside
the attack guard of line 77 and is skipped because `Standard Sh` is absent,
so it is not independent of the presence of other columns. -/
theorem C8_counterexample :
    process_football_data c8T = .ok c8LT c8PT ∧
    "Performance Gls" ∈ c8T.cols ∧ "Expected xG" ∈ c8T.cols ∧
    colSum c8T.rows "Performance Gls" = 42 ∧
    colSum c8T.rows "Expected xG" = 79 / 2 ∧
    cellAt c8LT "G-xG" = [some 0] ∧
    (0 : ℚ) ≠ 42 - 79 / 2 :=
  ⟨by with_unfolding_all rfl, by decide, by decide, by with_unfolding_all rfl,
   by with_unfolding_all rfl, by with_unfolding_all rfl, by norm_num⟩

/-- C8 amended: the `G-xG` differential equals `sum(actual) - sum(expected)`
with no normalization and independent of row counts, but only once its
enclosing guard is satisfied: `Standard Sh` and `Playing Time 90s` must be
present in addition to the two operand columns.  (Its sibling `A-xA` at line
358 genuinely needs only its two operands.) -/
theorem C8_amended (t : Table) (lt : LeagueTable) (pt : PlayerTable)
    (h : process_football_data t = .ok lt pt) (lr : LeagueRow)
    (hlr : lr ∈ lt.rows) (h1 : "Standard Sh" ∈ t.cols)
    (h2 : "Playing Time 90s" ∈ t.cols) (h3 : "Performance Gls" ∈ t.cols)
    (h4 : "Expected xG" ∈ t.cols) :
    alookup lr.vals "G-xG" =
      some (colSum (t.rows.filter (fun r => r.comp = lr.league)) "Performance Gls" -
            colSum (t.rows.filter (fun r => r.comp = lr.league)) "Expected xG") := by
  obtain ⟨ms, hb, hne, hlt, hpp⟩ := process_ok h
  subst hlt
  obtain ⟨r0, hr0, hleague, hvals⟩ := fillDefaults_rows hlr
  have hd := (buildLM_mem hb hr0).2.1
  rw [hvals, hleague]
  exact alookup_append_left (derive_gxg h1 h2 h3 h4 hd) _

/-- C8 witness: on `c8wT` (the `c8T` data plus a `Standard Sh` column) the
differential is computed and equals 42 - 39.5 = 2.5. -/
theorem C8_witness : alookup c8wRow.vals "G-xG" = some (42 - 79 / 2) :=
  (C8_amended c8wT c8wLT c8wPT (by with_unfolding_all rfl) c8wRow
    (by with_unfolding_all exact List.mem_cons_self _ _)
    (by decide) (by decide) (by decide) (by decide)).trans
    (by with_unfolding_all rfl)

/-- C9: for every qualifying league with all three tackle-zone columns
present and a nonzero zone total, `Pressing Intensity` equals
`(3*attacking-third + 2*middle-third + 1*defensive-third) / (total of the
three zone sums)`, with exactly those coefficients (lines 577-587). -/
theorem C9_pressing_intensity (t : Table) (lt : LeagueTable) (pt : PlayerTable)
    (h : process_football_data t = .ok lt pt) (lr : LeagueRow)
    (hlr : lr ∈ lt.rows) (h1 : "Tackles Att 3rd" ∈ t.cols)
    (h2 : "Tackles Mid 3rd" ∈ t.cols) (h3 : "Tackles Def 3rd" ∈ t.cols)
    (hpos : 0 <
      colSum (t.rows.filter (fun r => r.comp = lr.league)) "Tackles Att 3rd" +
      colSum (t.rows.filter (fun r => r.comp = lr.league)) "Tackles Mid 3rd" +
      colSum (t.rows.filter (fun r => r.comp = lr.league)) "Tackles Def 3rd") :
    alookup lr.vals "Pressing Intensity" =
      some ((3 * colSum (t.rows.filter (fun r => r.comp = lr.league)) "Tackles Att 3rd" +
             2 * colSum (t.rows.filter (fun r => r.comp = lr.league)) "Tackles Mid 3rd" +
             colSum (t.rows.filter (fun r => r.comp = lr.league)) "Tackles Def 3rd") /
            (colSum (t.rows.filter (fun r => r.comp = lr.league)) "Tackles Att 3rd" +
             colSum (t.rows.filter (fun r => r.comp = lr.league)) "Tackles Mid 3rd" +
             colSum (t.rows.filter (fun r => r.comp = lr.league)) "Tackles Def 3rd")) := by
  obtain ⟨ms, hb, hne, hlt, hpp⟩ := process_ok h
  subst hlt
  obtain ⟨r0, hr0, hleague, hvals⟩ := fillDefaults_rows hlr
  have hd := (buildLM_mem hb hr0).2.1
  rw [hvals, hleague]
  rw [hleague] at hpos
  exact alookup_append_left (derive_pressing h1 h2 h3 hpos hd) _

/-- C9 witness: zone sums 30/20/10 give `(90+40+10)/60 = 7/3`. -/
theorem C9_witness : alookup c9wRow.vals "Pressing Intensity" = some (7 / 3) :=
  (C9_pressing_intensity c9wT c9wLT c9wPT (by with_unfolding_all rfl) c9wRow
    (by with_unfolding_all exact List.mem_cons_self _ _)
    (by decide) (by decide) (by decide) (by with_unfolding_all decide)).trans
    (by with_unfolding_all rfl)
